import Mathlib

/-!
Shallow embedding of `src/macaron/slsa_analyzer/analyzer.py` (class `Analyzer`)
for verifying the evidence-reconciliation and orchestration engine.

External collaborators (git services, CI services, repo finder, provenance
finder, commit finder, check registry, database) are modelled as oracle
functions collected in an `Env` structure.  Types that belong to repository
modules not present under `src/` (`macaron.output_reporter.results`,
`macaron.config.target_config`, `macaron.slsa_analyzer.analyze_context`,
`macaron.repo_finder.provenance_extractor`, `macaron.slsa_analyzer.specs`)
are modelled from the specification, as indicated in their doc comments.
-/

namespace Macaron

/-- Modelled from the spec: `SCMStatus` of `macaron.output_reporter.results`
(not in src).  Per spec section 3, a Record status is one of AVAILABLE,
ANALYSIS_FAILED, DUPLICATED_SCM. -/
inductive SCMStatus where
  | AVAILABLE
  | ANALYSIS_FAILED
  | DUPLICATED_SCM
deriving DecidableEq, Repr

/-- The parsed package identifier (the `packageurl.PackageURL` third-party
class): ecosystem type, optional namespace, name, optional version. -/
structure PackageURL where
  ptype : String
  namespc : Option String
  name : String
  version : Option String
deriving DecidableEq, Repr

/-- String form of a PURL, `pkg:type/namespace/name@version`. -/
def purlToString (p : PackageURL) : String :=
  "pkg:" ++ p.ptype ++
    (match p.namespc with
     | some ns => "/" ++ ns
     | none => "") ++
    "/" ++ p.name ++
    (match p.version with
     | some v => "@" ++ v
     | none => "")

/-- Outcome of the user-supplied `purl` configuration value.  `absent` models
`None` or the empty string; `invalid raw` models a string rejected by
`PackageURL.from_string` (which raises `ValueError`); `parsed p` models a
string that parses (or a `PackageURL` object passed directly). -/
inductive PurlInput where
  | absent
  | invalid (raw : String)
  | parsed (purl : PackageURL)
deriving DecidableEq, Repr

/-- Modelled from the spec: `Configuration` of `macaron.config.target_config`
(not in src).  Per the docstrings in `analyzer.py`, `path`, `branch` and
`digest` are strings where the empty string means the value is absent;
`available` and `note` are set by the external dependency-merge step. -/
structure Configuration where
  id : String
  purl : PurlInput
  path : String
  branch : String
  digest : String
  note : String
  available : Option SCMStatus
deriving DecidableEq, Repr

/-- A check result, abstract (check implementations are out of scope). -/
structure CheckResult where
  resultId : String
deriving DecidableEq, Repr

/-- An in-toto provenance payload, abstract. -/
structure InTotoPayload where
  statement : String
deriving DecidableEq, Repr

/-- A provenance expectation, abstract. -/
structure Expectation where
  description : String
deriving DecidableEq, Repr

/-- An entry of the dependency-resolution result, abstract
(`macaron.dependency_analyzer.cyclonedx.DependencyInfo`). -/
structure DepInfo where
  infoId : String
deriving DecidableEq, Repr

/-- A provenance subject linking a provenance statement to a component,
abstract (`macaron.database.table_definitions.ProvenanceSubject`). -/
structure ProvenanceSubject where
  sha256 : String
deriving DecidableEq, Repr

/-- The state of a prepared git repository, standing for the
`pydriller.git.Git` object.  Fields record the oracle answers of the
`git_url` helpers applied to it. -/
structure GitRepo where
  originRemotePath : String
  activeBranch : Option String
  headCommitSha : String
  headCommitDate : String
  fsPath : String
  files : List String
  emptyRepo : Bool
deriving DecidableEq, Repr

/-- A version-control-host abstraction
(`macaron.slsa_analyzer.git_service.BaseGitService`), with its detection,
clone and checkout behaviour as oracle functions.  `isNoneService` marks the
`NoneGitService` sentinel. -/
structure GitService where
  name : String
  hostname : String
  isNoneService : Bool
  isDetectedFn : String → Bool
  cloneRepoFn : List String → String → Except String Unit
  checkOutRepoFn : GitRepo → String → String → Bool → Option GitRepo

/-- The `NoneGitService` sentinel: never detects, cannot clone or checkout. -/
def noneGitService : GitService :=
  { name := ""
    hostname := ""
    isNoneService := true
    isDetectedFn := fun _ => false
    cloneRepoFn := fun _ _ => Except.error ("NoneGitService cannot clone")
    checkOutRepoFn := fun _ _ _ _ => none }

/-- A CI pipeline intermediate representation, abstract. -/
structure CallGraph where
  nodes : List String
deriving DecidableEq, Repr

/-- A CI-service abstraction (`macaron.slsa_analyzer.ci_service`), with its
detection predicate and call-graph builder as oracle functions. -/
structure CIService where
  name : String
  isDetectedFn : String → GitService → Bool
  buildCallGraphFn : String → String → CallGraph

/-- A placeholder release asset, constructed with the literal arguments used
in `analyzer.py` (`VirtualReleaseAsset(name="No_ASSET", url="NO_URL",
size_in_bytes=0)`). -/
structure VirtualReleaseAsset where
  name : String
  url : String
  sizeInBytes : Nat
deriving DecidableEq, Repr

/-- Provenance data attached to a CIInfo entry
(`macaron.slsa_analyzer.provenance.slsa.SLSAProvenanceData`). -/
structure SLSAProvenanceData where
  payload : InTotoPayload
  asset : VirtualReleaseAsset
deriving DecidableEq, Repr

/-- Modelled from the spec: `CIInfo` of
`macaron.slsa_analyzer.specs.ci_spec` (not in src).  Per spec section 3, a
detected CI service record holds the build-pipeline intermediate
representation and any provenance assets found; the placeholder entry is
created with empty assets, an empty release and an inferred provenance
stub.  The two constructor call sites in `analyzer.py` use the keyword
names `release` and `latest_release` respectively; both are modelled by the
single `release` field. -/
structure CIInfo where
  service : CIService
  callgraph : CallGraph
  provenanceAssets : List String
  release : List (String × String)
  provenances : List SLSAProvenanceData

/-- A build-tool abstraction (`macaron.slsa_analyzer.build_tool`). -/
structure BuildTool where
  name : String
  purlType : String
  isDetectedFn : String → Bool

/-- A package-registry abstraction
(`macaron.slsa_analyzer.package_registry`). -/
structure PackageRegistry where
  name : String
  isDetectedFn : BuildTool → Bool

/-- A matched (build tool, package registry) pair
(`macaron.slsa_analyzer.specs.package_registry_spec.PackageRegistryInfo`). -/
structure PackageRegistryInfo where
  buildTool : BuildTool
  packageRegistry : PackageRegistry

/-- Split a character list on a separator (auxiliary for path splitting;
written structurally so that it evaluates by kernel reduction). -/
def splitChar (sep : Char) : List Char → List Char → List (List Char)
  | acc, [] => [acc.reverse]
  | acc, c :: cs =>
    if c = sep then acc.reverse :: splitChar sep [] cs
    else splitChar sep (c :: acc) cs

/-- Path components of a repository-style name such as
`github.com/oracle/macaron` (Python `Path(name).parts`). -/
def pathParts (s : String) : List String :=
  ((splitChar '/' [] s.data).map (fun l => (⟨l⟩ : String))).filter
    (fun c => c ≠ "")

/-- Last path component (Python `Path(p).name`). -/
def pyBasename (s : String) : String :=
  (pathParts s).getLastD ""

/-- The repository row staged for the database
(`macaron.database.table_definitions.Repository`), as built by
`Analyzer.add_repository`. -/
structure Repository where
  fullName : String
  completeName : String
  remotePath : String
  branchName : Option String
  commitSha : String
  commitDate : String
  fsPath : String
  files : List String
deriving DecidableEq, Repr

/-- The ecosystem type segment of the repository's complete name (the
`Repository.type` column, derived from `complete_name`, whose 2-3 segments
are `type/namespace/name`). -/
def Repository.rtype (r : Repository) : String :=
  (pathParts r.completeName).headD ""

/-- The namespace segment of the repository's complete name (the
`Repository.owner` column); absent when the complete name has only two
segments. -/
def Repository.owner (r : Repository) : Option String :=
  if (pathParts r.completeName).length = 3 then (pathParts r.completeName).get? 1
  else none

/-- The name segment of the repository's complete name (the
`Repository.name` column). -/
def Repository.rname (r : Repository) : String :=
  (pathParts r.completeName).getLastD ""

/-- The software component staged for the database
(`macaron.database.table_definitions.Component`): the PURL string, the PURL
it was built from, the optional prepared repository and the optional
provenance subject. -/
structure Component where
  purl : String
  purlObj : PackageURL
  repository : Option Repository
  provenanceSubject : Option ProvenanceSubject
deriving DecidableEq, Repr

/-- The two build-tool lists of the analysis context: `tools` (detected by
repository inspection) and `purl_tools` (declared by the identifier type). -/
structure BuildSpec where
  tools : List BuildTool
  purlTools : List BuildTool

/-- Modelled from the spec: the `dynamic_data` bag of
`macaron.slsa_analyzer.analyze_context.AnalyzeContext` (not in src).  Per
spec section 3 it holds the detected host service, detected CI services,
detected build tools (declared vs detected kept as two lists), detected
package registries, and the provenance payload with its verification
state. -/
structure DynamicData where
  gitService : GitService
  ciServices : List CIInfo
  buildSpec : BuildSpec
  packageRegistries : List PackageRegistryInfo
  expectation : Option Expectation
  provenance : Option InTotoPayload
  isInferredProv : Bool
  provenanceVerified : Bool
  provenanceRepoUrl : Option String
  provenanceCommitDigest : Option String

/-- Modelled from the spec: `AnalyzeContext` of
`macaron.slsa_analyzer.analyze_context` (not in src): the mutable bag of
discovered facts for one component, finalized with the check-id to result
mapping. -/
structure AnalyzeContext where
  component : Component
  macaronPath : String
  outputDir : String
  dynamicData : DynamicData
  checkResults : List (String × CheckResult)

/-- Modelled from the spec: `Record` of `macaron.output_reporter.results`
(not in src).  Per spec section 3: per-target outcome with id, description,
original configuration, status and optional analysis context. -/
structure Record where
  recordId : String
  description : String
  preConfig : Configuration
  status : SCMStatus
  context : Option AnalyzeContext

/-- Modelled from the spec: `Report` of `macaron.output_reporter.results`
(not in src).  Per spec section 3: the root Record plus the ordered list of
dependency Records, with an id-to-Record index over all of them. -/
structure Report where
  rootRecord : Record
  depRecords : List Record

/-- All records of the report, root first. -/
def Report.allRecords (r : Report) : List Record :=
  r.rootRecord :: r.depRecords

/-- Modelled from the spec: the run-scoped id-to-Record index
(`Report.record_mapping`).  The dependency-deduplication step looks a
prepared repository's normalized remote origin up in this index. -/
def Report.recordMapping (r : Report) (key : String) : Option Record :=
  r.allRecords.find? (fun rec => rec.recordId == key)

/-- Modelled from the spec: `Report.find_ctx`, the context of the record
registered under an id, if any. -/
def Report.findCtx (r : Report) (key : String) : Option AnalyzeContext :=
  (r.recordMapping key).bind (fun rec => rec.context)

/-- The run configuration shape: one root target and its declared
dependencies. -/
structure UserConfig where
  target : Configuration
  dependencies : List Configuration
deriving DecidableEq, Repr

/-- A filesystem path: absolute or relative, with its components. -/
structure FsPath where
  abs : Bool
  comps : List String
deriving DecidableEq, Repr

/-- Python `os.path.join(a, b)`: `b` wins when absolute. -/
def pathJoin (a b : FsPath) : FsPath :=
  if b.abs then b else ⟨a.abs, a.comps ++ b.comps⟩

/-- Longest common prefix of two component lists: `os.path.commonpath`
restricted to two canonical absolute paths (which is how
`_resolve_local_path` invokes it, both arguments being `realpath`
results). -/
def commonpath : List String → List String → List String
  | a :: as, b :: bs => if a = b then a :: commonpath as bs else []
  | _, _ => []

/-- The filesystem oracle: `os.path.realpath(..., strict=True)` returning the
canonical absolute components, or `none` when it raises `OSError`
(non-existent path, broken symlink, symlink loop); and the
`pydriller.git.Git` constructor, `none` when `InvalidGitRepositoryError` is
raised. -/
structure FileSystem where
  realpath : FsPath → Option (List String)
  gitAt : List String → Option GitRepo

/-- The external collaborators of the analyzer, as oracle functions, plus the
analyzer's own configured paths. -/
structure Env where
  gitServices : List GitService
  ciServices : List CIService
  buildTools : List BuildTool
  packageRegistries : List PackageRegistry
  outputPath : List String
  localReposPath : FsPath
  macaronPath : String
  verifyProvenanceFlag : Bool
  findProvenanceFn : PackageURL → List InTotoPayload
  verifyProvenanceFn : PackageURL → List InTotoPayload → Bool
  findProvenanceFromCiFn : AnalyzeContext → Option GitRepo → Option InTotoPayload
  extractRepoAndCommit : InTotoPayload → Except String (Option String × Option String)
  sameLogicalRepo : String → String → Bool
  toRepoPathFn : PackageURL → List String → Option String
  findRepoFn : PackageURL → Option String
  findCommitFn : GitRepo → PackageURL → Option String
  isRemoteRepoFn : String → Bool
  getRemoteVcsUrlFn : String → String
  getRepoDirNameFn : String → List String
  getRepoFullNameFn : String → String
  getRepoCompleteNameFn : String → String
  checkOutRepoTargetFn : GitRepo → String → String → Bool → Option GitRepo
  provenanceSubjectFn : PackageURL → InTotoPayload → Option ProvenanceSubject
  expectationFn : String → Option Expectation
  relpathFn : String → String → String
  scanFn : AnalyzeContext → List (String × CheckResult)
  resolveDependenciesFn : AnalyzeContext → String → List DepInfo
  mergeConfigsFn : List Configuration → List DepInfo → List Configuration
  inferredStatement : String
  storageFails : Bool

/-- Python truthiness of an optional string: `None` and the empty string are
falsy. -/
def pyTruthy : Option String → Bool
  | some s => s ≠ ""
  | none => false

/-- `x or ""` for an optional string. -/
def pyGetStr : Option String → String
  | some s => s
  | none => ""

/-- Python `a or b` over optional strings (empty string falsy). -/
def pyOrOpt (a b : Option String) : Option String :=
  match a with
  | some s => if s = "" then b else a
  | none => b

/-- The supported git host domains,
`[git_service.hostname for git_service in GIT_SERVICES if git_service.hostname]`. -/
def availableDomains (env : Env) : List String :=
  (env.gitServices.map (fun g => g.hostname)).filter (fun h => h ≠ "")

/-- `Analyzer.parse_purl`: `None`/empty input gives no PURL; an unparseable
string raises `InvalidPURLError` (`"Invalid input PURL: ..."`), modelled as
`Except.error` carrying the message. -/
def parse_purl (config : Configuration) : Except String (Option PackageURL) :=
  match config.purl with
  | PurlInput.absent => Except.ok none
  | PurlInput.invalid raw => Except.error ("Invalid input PURL: " ++ raw)
  | PurlInput.parsed p => Except.ok (some p)

/-- First character class of the PURL type pattern `[a-z.+-]`. -/
def purlTypeFirstChar (c : Char) : Bool :=
  (decide (97 ≤ c.toNat) && decide (c.toNat ≤ 122))
    || c == Char.ofNat 46 || c == Char.ofNat 43 || c == Char.ofNat 45

/-- Subsequent character class of the PURL type pattern `[a-z0-9.+-]`. -/
def purlTypeChar (c : Char) : Bool :=
  purlTypeFirstChar c
    || (decide (48 ≤ c.toNat) && decide (c.toNat ≤ 57))

/-- Full match of the PURL type against `^[a-z.+-][a-z0-9.+-]*$`
(from `Analyzer.run_single`). -/
def purlTypeValid (s : String) : Bool :=
  match s.data with
  | [] => false
  | c :: cs => purlTypeFirstChar c && cs.all purlTypeChar

/-- The resolved analysis target (`Analyzer.AnalysisTarget`): optional parsed
PURL plus repository path, branch and digest, where the empty string means
absent. -/
structure AnalysisTarget where
  parsedPurl : Option PackageURL
  repoPath : String
  branch : String
  digest : String
deriving DecidableEq, Repr

/-- `Analyzer.to_analysis_target`: resolve the component details from user
input, the known host domains and the provenance-derived repository URL and
commit digest; raises `InvalidAnalysisTargetError` (modelled as
`Except.error`) when both identifier and repository path are missing. -/
def to_analysis_target (env : Env) (config : Configuration)
    (domains : List String) (parsedPurl : Option PackageURL)
    (provenanceRepoUrl provenanceCommitDigest : Option String) :
    Except String AnalysisTarget :=
  let repoPathInput := config.path
  let inputBranch := config.branch
  let inputDigest := config.digest
  if parsedPurl = none ∧ repoPathInput = "" then
    Except.error
      ("Cannot determine the analysis target: PURL and repository path are missing.")
  else if repoPathInput = "" then
    if pyTruthy provenanceRepoUrl || pyTruthy provenanceCommitDigest then
      Except.ok
        { parsedPurl := parsedPurl
          repoPath := pyGetStr provenanceRepoUrl
          branch := ""
          digest := pyGetStr provenanceCommitDigest }
    else
      let convertedRepoPath :=
        match parsedPurl with
        | some p => env.toRepoPathFn p domains
        | none => none
      let repo : Option String :=
        match parsedPurl with
        | some p => if convertedRepoPath = none then env.findRepoFn p else none
        | none => none
      Except.ok
        { parsedPurl := parsedPurl
          repoPath := pyGetStr (pyOrOpt convertedRepoPath repo)
          branch := inputBranch
          digest := inputDigest }
  else
    if inputDigest ≠ "" then
      Except.ok
        { parsedPurl := parsedPurl
          repoPath := repoPathInput
          branch := inputBranch
          digest := inputDigest }
    else
      Except.ok
        { parsedPurl := parsedPurl
          repoPath := repoPathInput
          branch := inputBranch
          digest := pyGetStr provenanceCommitDigest }

/-- `Analyzer._resolve_local_path`: canonicalize `start_dir` and
`join(start_dir, local_path)` in strict mode and require the latter to stay
inside the former via `commonpath`; any resolution error or containment
failure yields the empty string, modelled as `none`. -/
def _resolve_local_path (fs : FileSystem) (startDir localPath : FsPath) :
    Option (List String) :=
  match fs.realpath startDir with
  | none => none
  | some dirReal =>
    match fs.realpath (pathJoin startDir localPath) with
    | none => none
    | some resolvePath =>
      if commonpath resolvePath dirReal ≠ dirReal then none
      else some resolvePath

/-- The `GIT_REPOS_DIR` class constant. -/
def gitReposDir : String := "git_repos"

/-- `Analyzer.get_git_service`: the first configured git service whose
detector matches the remote path, else the `NoneGitService` sentinel. -/
def get_git_service (env : Env) (remotePath : Option String) : GitService :=
  match remotePath with
  | some p =>
    if p ≠ "" then (env.gitServices.find? (fun g => g.isDetectedFn p)).getD noneGitService
    else noneGitService
  | none => noneGitService

/-- Parse a Python path string into components with an absolute flag. -/
def parsePyPath (s : String) : FsPath :=
  ⟨(match s.data with
    | c :: _ => c == '/'
    | [] => false),
    pathParts s⟩

/-- The acquisition step of `Analyzer._prepare_repo`: classify the path as
remote or local; a remote path is canonicalized and cloned to a
deterministic destination under the target directory, a local path is
resolved inside the sandboxed local-repos root.  Any failure yields `none`
(the method logs and returns `None`). -/
def _prepare_repo_locate (env : Env) (fs : FileSystem) (targetDir : List String)
    (repoPath : String) : Option (List String) :=
  if env.isRemoteRepoFn repoPath then
    let resolvedRemotePath := env.getRemoteVcsUrlFn repoPath
    if resolvedRemotePath = "" then none
    else
      let gitService := get_git_service env (some resolvedRemotePath)
      let repoUniquePath := env.getRepoDirNameFn resolvedRemotePath
      let resolvedLocalPath := targetDir ++ repoUniquePath
      match gitService.cloneRepoFn resolvedLocalPath resolvedRemotePath with
      | Except.error _ => none
      | Except.ok _ => some resolvedLocalPath
  else
    _resolve_local_path fs env.localReposPath (parsePyPath repoPath)

/-- `Analyzer._prepare_repo`: acquire (clone or locate) the repository,
reject empty repositories, resolve a commit digest from a version-carrying
PURL when no digest is given, and check out the requested branch/commit.
Any failure yields `none` (the method logs and returns `None`). -/
def _prepare_repo (env : Env) (fs : FileSystem) (targetDir : List String)
    (repoPath : String) (branchName digest : String)
    (purl : Option PackageURL) : Option GitRepo :=
  let isRemote := env.isRemoteRepoFn repoPath
  match _prepare_repo_locate env fs targetDir repoPath with
  | none => none
  | some resolvedLocalPath =>
    match fs.gitAt resolvedLocalPath with
    | none => none
    | some gitObj =>
      if gitObj.emptyRepo then none
      else
        let digest? : Option String :=
          if digest = "" then
            match purl with
            | some p =>
              if pyTruthy p.version then
                match env.findCommitFn gitObj p with
                | none => none
                | some found => some found
              else some digest
            | none => some digest
          else some digest
        match digest? with
        | none => none
        | some digest2 =>
          if isRemote then
            let remoteService :=
              get_git_service env (some (env.getRemoteVcsUrlFn repoPath))
            remoteService.checkOutRepoFn gitObj branchName digest2 false
          else
            let originRemoteUrl := gitObj.originRemotePath
            if env.isRemoteRepoFn originRemoteUrl then
              (get_git_service env (some originRemoteUrl)).checkOutRepoFn
                gitObj branchName digest2 true
            else
              env.checkOutRepoTargetFn gitObj branchName digest2 true

/-- `Analyzer.add_repository`: build the transient `Repository` row from the
prepared git object; `none` when the complete name does not have 2 or 3
path segments. -/
def add_repository (env : Env) (branchName : String) (gitObj : GitRepo) :
    Option Repository :=
  let originRemotePath := gitObj.originRemotePath
  let fullName := env.getRepoFullNameFn originRemotePath
  let completeName0 := env.getRepoCompleteNameFn originRemotePath
  let completeName :=
    if completeName0 = "" then "local_repos/" ++ pyBasename originRemotePath
    else completeName0
  let resBranch : Option String :=
    if branchName ≠ "" then some branchName else gitObj.activeBranch
  let partsLen := (pathParts completeName).length
  if partsLen < 2 ∨ partsLen > 3 then none
  else
    some
      { fullName := fullName
        completeName := completeName
        remotePath := originRemotePath
        branchName := resBranch
        commitSha := gitObj.headCommitSha
        commitDate := gitObj.headCommitDate
        fsPath := gitObj.fsPath
        files := gitObj.files }

/-- The error outcomes of `Analyzer.add_component`: `PURLNotFoundError` or
`DuplicateCmpError` (which carries the prior record's context). -/
inductive AddComponentError where
  | purlNotFound (msg : String)
  | duplicate (msg : String) (context : Option AnalyzeContext)

/-- `Analyzer.add_component`: raise `DuplicateCmpError` when the prepared
repository's remote origin is already registered in the run-scoped record
index; build the repository row; synthesize a PURL from the repository when
the user provided none, failing with `PURLNotFoundError` when neither a
PURL nor a repository is available; attach the provenance subject. -/
def add_component (env : Env) (analysisTarget : AnalysisTarget)
    (gitObj : Option GitRepo)
    (existingRecords : Option (String → Option Record))
    (provenancePayload : Option InTotoPayload) :
    Except AddComponentError Component :=
  let repository? : Except AddComponentError (Option Repository) :=
    match gitObj with
    | some g =>
      match existingRecords with
      | some lookup =>
        match lookup g.originRemotePath with
        | some existingRecord =>
          Except.error
            (AddComponentError.duplicate
              (analysisTarget.repoPath ++ " is already analyzed.")
              existingRecord.context)
        | none => Except.ok (add_repository env analysisTarget.branch g)
      | none => Except.ok (add_repository env analysisTarget.branch g)
    | none => Except.ok none
  match repository? with
  | Except.error e => Except.error e
  | Except.ok repository =>
    let purl? : Except AddComponentError PackageURL :=
      match analysisTarget.parsedPurl with
      | none =>
        match repository with
        | none =>
          Except.error
            (AddComponentError.purlNotFound
              ("The repository " ++ analysisTarget.repoPath ++
                " is not available and no PURL is provided from the user."))
        | some repo =>
          Except.ok
            { ptype := repo.rtype
              namespc := repo.owner
              name := repo.rname
              version := some repo.commitSha }
      | some p => Except.ok p
    match purl? with
    | Except.error e => Except.error e
    | Except.ok purl =>
      Except.ok
        { purl := purlToString purl
          purlObj := purl
          repository := repository
          provenanceSubject :=
            match provenancePayload with
            | some payload => env.provenanceSubjectFn purl payload
            | none => none }

/-- Render path components into a display string for oracle inputs. -/
def renderPath (comps : List String) : String :=
  "/" ++ String.intercalate ("/") comps

/-- The initial dynamic data of a fresh analysis context: sentinel git
service, no detections, inferred-provenance flag set. -/
def defaultDynamicData : DynamicData :=
  { gitService := noneGitService
    ciServices := []
    buildSpec := { tools := [], purlTools := [] }
    packageRegistries := []
    expectation := none
    provenance := none
    isInferredProv := true
    provenanceVerified := false
    provenanceRepoUrl := none
    provenanceCommitDigest := none }

/-- `Analyzer.get_analyze_ctx`: a fresh analysis context for the component. -/
def get_analyze_ctx (env : Env) (component : Component) : AnalyzeContext :=
  { component := component
    macaronPath := env.macaronPath
    outputDir := renderPath env.outputPath
    dynamicData := defaultDynamicData
    checkResults := [] }

/-- The remote path of the context's repository, when one is attached. -/
def remotePathOf (ctx : AnalyzeContext) : Option String :=
  ctx.component.repository.map (fun r => r.remotePath)

/-- The local filesystem path of the context's repository (empty when no
repository is attached; only consulted when a git service was detected,
which requires an attached repository). -/
def fsPathOf (ctx : AnalyzeContext) : String :=
  (ctx.component.repository.map (fun r => r.fsPath)).getD ""

/-- `Analyzer._determine_git_service`: detect the git service from the
repository's remote path, recording it in the dynamic data unless it is the
sentinel. -/
def _determine_git_service (env : Env) (ctx : AnalyzeContext) :
    GitService × AnalyzeContext :=
  let gitService := get_git_service env (remotePathOf ctx)
  if gitService.isNoneService then (gitService, ctx)
  else
    (gitService,
      { ctx with dynamicData := { ctx.dynamicData with gitService := gitService } })

/-- One CIInfo entry for a detected CI service: the built pipeline
intermediate representation plus the placeholder provenance-asset/release
entry. -/
def mkCIInfo (env : Env) (ctx : AnalyzeContext) (ciService : CIService) :
    CIInfo :=
  let fsPath := fsPathOf ctx
  { service := ciService
    callgraph := ciService.buildCallGraphFn fsPath (env.relpathFn fsPath ctx.outputDir)
    provenanceAssets := []
    release := []
    provenances :=
      [ { payload := { statement := env.inferredStatement }
          asset := { name := "No_ASSET", url := "NO_URL", sizeInBytes := 0 } } ] }

/-- The CIInfo entries appended by one CI-detection pass: one entry per CI
service whose detection predicate matches the repository path and the
recorded git service. -/
def ciInfosFor (env : Env) (ctx : AnalyzeContext) : List CIInfo :=
  (env.ciServices.filter
      (fun s => s.isDetectedFn (fsPathOf ctx) ctx.dynamicData.gitService)).map
    (mkCIInfo env ctx)

/-- `Analyzer._determine_ci_services`: return unchanged when the git service
is the sentinel; otherwise append one CIInfo entry per detected CI
service. -/
def _determine_ci_services (env : Env) (ctx : AnalyzeContext)
    (gitService : GitService) : AnalyzeContext :=
  if gitService.isNoneService then ctx
  else
    { ctx with
      dynamicData :=
        { ctx.dynamicData with
          ciServices := ctx.dynamicData.ciServices ++ ciInfosFor env ctx } }

/-- The purl-declared build tools appended at the start of
`Analyzer.perform_checks`: tools whose purl type matches the component's. -/
def addPurlTools (env : Env) (ctx : AnalyzeContext) : AnalyzeContext :=
  let purlTools :=
    env.buildTools.filter (fun t => t.purlType == ctx.component.purlObj.ptype)
  { ctx with
    dynamicData :=
      { ctx.dynamicData with
        buildSpec :=
          { ctx.dynamicData.buildSpec with
            purlTools := ctx.dynamicData.buildSpec.purlTools ++ purlTools } } }

/-- The first half of the detection block of `Analyzer.perform_checks` run
when a git service was found: record the service, then append the build
tools detected by repository inspection. -/
def perform_checks_tools_ctx (env : Env) (ctx : AnalyzeContext)
    (gitService : GitService) : AnalyzeContext :=
  let ctxA :=
    { ctx with dynamicData := { ctx.dynamicData with gitService := gitService } }
  let tools := env.buildTools.filter (fun t => t.isDetectedFn (fsPathOf ctxA))
  { ctxA with
    dynamicData :=
      { ctxA.dynamicData with
        buildSpec :=
          { ctxA.dynamicData.buildSpec with
            tools := ctxA.dynamicData.buildSpec.tools ++ tools } } }

/-- The detection block of `Analyzer.perform_checks` run when a git service
was found: record the service, append the detected build tools, then append
one CIInfo per detected CI service. -/
def perform_checks_detect (env : Env) (ctx : AnalyzeContext)
    (gitService : GitService) : AnalyzeContext :=
  let ctxB := perform_checks_tools_ctx env ctx gitService
  { ctxB with
    dynamicData :=
      { ctxB.dynamicData with
        ciServices := ctxB.dynamicData.ciServices ++ ciInfosFor env ctxB } }

/-- The package-registry block of `Analyzer.perform_checks`: cross-reference
the detected (or, when none, the purl-declared) build tools against the
configured registries, retaining every match. -/
def addRegistries (env : Env) (ctx : AnalyzeContext) : AnalyzeContext :=
  let buildTools :=
    if ctx.dynamicData.buildSpec.tools.isEmpty then
      ctx.dynamicData.buildSpec.purlTools
    else ctx.dynamicData.buildSpec.tools
  let infos :=
    env.packageRegistries.foldl
      (fun acc r =>
        acc ++
          buildTools.filterMap
            (fun t =>
              if r.isDetectedFn t then
                some { buildTool := t, packageRegistry := r }
              else none))
      []
  { ctx with
    dynamicData :=
      { ctx.dynamicData with
        packageRegistries := ctx.dynamicData.packageRegistries ++ infos } }

/-- The context mutations of `Analyzer.perform_checks` before the registry
scan: purl-declared tools, git-service detection with its dependent
build-tool and CI detection, then package registries. -/
def perform_checks_mutate (env : Env) (ctx0 : AnalyzeContext) : AnalyzeContext :=
  let ctx1 := addPurlTools env ctx0
  let gitService := get_git_service env (remotePathOf ctx1)
  let ctx2 :=
    if gitService.isNoneService then ctx1
    else perform_checks_detect env ctx1 gitService
  addRegistries env ctx2

/-- `Analyzer.perform_checks`: mutate the context as above, then delegate to
the check registry; returns the mutated context together with the check-id
to result mapping. -/
def perform_checks (env : Env) (ctx0 : AnalyzeContext) :
    AnalyzeContext × List (String × CheckResult) :=
  let ctx := perform_checks_mutate env ctx0
  (ctx, env.scanFn ctx)

/-- The context as finalized by `run_single`: the perform_checks mutations
plus the returned check mapping stored in `check_results`. -/
def finalizeChecks (env : Env) (pre : AnalyzeContext) : AnalyzeContext :=
  let res := perform_checks env pre
  { res.1 with checkResults := res.2 }

/-- Modelled from the spec:
`check_if_input_repo_commit_provenance_conflict` of
`macaron.repo_finder.provenance_extractor` (not in src).  Per spec section
4.1 rule 4: two non-empty repo-URL equivalents that do not denote the same
logical repository, or two non-empty digests that differ, is a hard
conflict; an absent side never conflicts.  `sameLogicalRepo` is the oracle
deciding logical-repository equality. -/
def check_if_input_repo_commit_provenance_conflict (env : Env)
    (repoPathInput digestInput : String)
    (provenanceRepoUrl provenanceCommitDigest : Option String) : Bool :=
  (repoPathInput ≠ "" &&
      (match provenanceRepoUrl with
       | some r => r ≠ "" && !env.sameLogicalRepo repoPathInput r
       | none => false))
    ||
  (digestInput ≠ "" &&
      (match provenanceCommitDigest with
       | some d => d ≠ "" && digestInput ≠ d
       | none => false))

/-- Modelled from the spec: `check_if_input_purl_provenance_conflict` of
`macaron.repo_finder.provenance_extractor` (not in src).  Per spec section
4.1 rule 4, the second conflict pass compares the actual prepared
repository's origin (and checked-out commit) against the provenance values,
for whichever of repo/digest did not come from direct input (those already
passed the first check). -/
def check_if_input_purl_provenance_conflict (env : Env) (gitObj : GitRepo)
    (repoInputPresent digestInputPresent : Bool)
    (provenanceRepoUrl provenanceCommitDigest : Option String)
    (_purl : PackageURL) : Bool :=
  (!repoInputPresent &&
      (match provenanceRepoUrl with
       | some r => r ≠ "" && !env.sameLogicalRepo gitObj.originRemotePath r
       | none => false))
    ||
  (!digestInputPresent &&
      (match provenanceCommitDigest with
       | some d => d ≠ "" && gitObj.headCommitSha ≠ d
       | none => false))

/-- `extract_repo_and_commit_from_provenance` as invoked by `run_single`:
the oracle's answer, with a `ProvenanceError` degraded to two absent values
(the code logs and continues). -/
def extract_repo_commit (env : Env) :
    Option InTotoPayload → Option String × Option String
  | none => (none, none)
  | some payload =>
    match env.extractRepoAndCommit payload with
    | Except.error _ => (none, none)
    | Except.ok rd => rd

/-- The part of the PURL string before the first version separator
(Python `purl.split("@")[0]`), the key used to look up an expectation. -/
def purlBase (s : String) : String :=
  ⟨s.data.takeWhile (fun c => c ≠ '@')⟩

/-- The outcome of `Analyzer.run_single`: the returned record, plus a flag
recording whether the check battery was dispatched for this target (used to
express that failed and duplicated targets are never analyzed). -/
structure SingleResult where
  record : Record
  checksRan : Bool

/-- A failure record: `ANALYSIS_FAILED`, the raised error's message as
description, no context. -/
def mkFailRecord (config : Configuration) (msg : String) : Record :=
  { recordId := config.id
    description := msg
    preConfig := config
    status := SCMStatus.ANALYSIS_FAILED
    context := none }

/-- The final segment of `Analyzer.run_single`: store the provenance
results in the dynamic data, dispatch the checks and return the
`AVAILABLE` record carrying the finalized context. -/
def run_single_final_stage (env : Env) (config : Configuration)
    (provenancePayload : Option InTotoPayload) (provenanceIsVerified : Bool)
    (provenanceRepoUrl provenanceCommitDigest : Option String)
    (ctx : AnalyzeContext) : SingleResult :=
  let dd0 := ctx.dynamicData
  let dd1 :=
    { dd0 with
      provenance := provenancePayload
      isInferredProv :=
        if provenancePayload.isSome then false else dd0.isInferredProv
      provenanceVerified :=
        if provenancePayload.isSome then provenanceIsVerified
        else dd0.provenanceVerified
      provenanceRepoUrl := provenanceRepoUrl
      provenanceCommitDigest := provenanceCommitDigest }
  let finalCtx := finalizeChecks env { ctx with dynamicData := dd1 }
  { record :=
      { recordId := config.id
        description := "Analysis Completed."
        preConfig := config
        status := SCMStatus.AVAILABLE
        context := some finalCtx }
    checksRan := true }

/-- The validation of the CI-found provenance against the input values (or
the values found during analysis), from the `if not provenance_payload`
branch of `Analyzer.run_single`: a conflict fails the target, otherwise the
extracted values are carried into the final segment. -/
def run_single_conflict_outcome (env : Env) (config : Configuration)
    (provenanceIsVerified : Bool) (payload : InTotoPayload)
    (repoPathInput digestInput : String) (ctx : AnalyzeContext) : SingleResult :=
  let extracted := extract_repo_commit env (some payload)
  if (pyTruthy extracted.1 || pyTruthy extracted.2) &&
      check_if_input_repo_commit_provenance_conflict env repoPathInput
        digestInput extracted.1 extracted.2 then
    { record :=
        mkFailRecord config "Input mismatch between repo/commit and provenance."
      checksRan := false }
  else
    run_single_final_stage env config (some payload) provenanceIsVerified
      extracted.1 extracted.2 ctx

/-- The CI-provenance lookup of `Analyzer.run_single`: only when no
provenance payload is known yet, ask the provenance finder using the CI
context; when one is found, take the digest and repository from the input
or, when absent there, from the analyzed repository, and validate them
against the newly extracted provenance values. -/
def run_single_ci_provenance_stage (env : Env) (config : Configuration)
    (provenancePayload : Option InTotoPayload) (provenanceIsVerified : Bool)
    (provenanceRepoUrl provenanceCommitDigest : Option String)
    (component : Component) (ctx : AnalyzeContext)
    (gitObj : Option GitRepo) : SingleResult :=
  match provenancePayload with
  | some payload =>
    run_single_final_stage env config (some payload) provenanceIsVerified
      provenanceRepoUrl provenanceCommitDigest ctx
  | none =>
    match env.findProvenanceFromCiFn ctx gitObj with
    | none =>
      run_single_final_stage env config none provenanceIsVerified
        provenanceRepoUrl provenanceCommitDigest ctx
    | some payload =>
      let digestInput :=
        if config.digest = "" ∧ component.repository.isSome then
          (component.repository.map (fun r => r.commitSha)).getD ""
        else config.digest
      let repoPathInput :=
        if config.path = "" ∧ component.repository.isSome then
          (component.repository.map (fun r => r.remotePath)).getD ""
        else config.path
      run_single_conflict_outcome env config provenanceIsVerified payload
        repoPathInput digestInput ctx

/-- The analysis segment of `Analyzer.run_single` after the component is
built: create the context, record the expectation, detect the git service
and the CI services, look for provenance via the CI when none is known yet,
then finish. -/
def run_single_analyze_stage (env : Env) (config : Configuration)
    (provenancePayload : Option InTotoPayload) (provenanceIsVerified : Bool)
    (provenanceRepoUrl provenanceCommitDigest : Option String)
    (component : Component) (gitObj : Option GitRepo) : SingleResult :=
  let ctx0 := get_analyze_ctx env component
  let ctx1 :=
    { ctx0 with
      dynamicData :=
        { ctx0.dynamicData with
          expectation := env.expectationFn (purlBase component.purl) } }
  let gs := _determine_git_service env ctx1
  let ctx3 := _determine_ci_services env gs.2 gs.1
  run_single_ci_provenance_stage env config provenancePayload
    provenanceIsVerified provenanceRepoUrl provenanceCommitDigest component
    ctx3 gitObj

/-- The component segment of `Analyzer.run_single`: build the component,
converting `PURLNotFoundError` into an `ANALYSIS_FAILED` record and
`DuplicateCmpError` into a `DUPLICATED_SCM` record that reuses the earlier
record's context. -/
def run_single_component_stage (env : Env) (_fs : FileSystem)
    (config : Configuration)
    (existingRecords : Option (String → Option Record))
    (provenancePayload : Option InTotoPayload) (provenanceIsVerified : Bool)
    (provenanceRepoUrl provenanceCommitDigest : Option String)
    (gitObj : Option GitRepo) (analysisTarget : AnalysisTarget) : SingleResult :=
  match add_component env analysisTarget gitObj existingRecords provenancePayload with
  | Except.error (AddComponentError.purlNotFound msg) =>
    { record := mkFailRecord config msg, checksRan := false }
  | Except.error (AddComponentError.duplicate msg ctx) =>
    { record :=
        { recordId := config.id
          description := msg
          preConfig := config
          status := SCMStatus.DUPLICATED_SCM
          context := ctx }
      checksRan := false }
  | Except.ok component =>
    run_single_analyze_stage env config provenancePayload provenanceIsVerified
      provenanceRepoUrl provenanceCommitDigest component gitObj

/-- The repository preparation performed by `run_single` for a resolved
target. -/
def prepareTarget (env : Env) (fs : FileSystem) (tgt : AnalysisTarget) :
    Option GitRepo :=
  _prepare_repo env fs (env.outputPath ++ [gitReposDir]) tgt.repoPath
    tgt.branch tgt.digest tgt.parsedPurl

/-- The preparation segment of `Analyzer.run_single`: prepare the repository
when a path was resolved, then run the second conflict validation (against
the actual prepared repository) when a PURL and provenance values are
present. -/
def run_single_prepare_stage (env : Env) (fs : FileSystem)
    (config : Configuration)
    (existingRecords : Option (String → Option Record))
    (provenancePayload : Option InTotoPayload) (provenanceIsVerified : Bool)
    (parsedPurl : Option PackageURL)
    (provenanceRepoUrl provenanceCommitDigest : Option String)
    (analysisTarget : AnalysisTarget) : SingleResult :=
  let gitObj : Option GitRepo :=
    if analysisTarget.repoPath ≠ "" then prepareTarget env fs analysisTarget
    else none
  let conflict : Bool :=
    match gitObj, parsedPurl with
    | some g, some p =>
      (pyTruthy provenanceRepoUrl || pyTruthy provenanceCommitDigest) &&
        check_if_input_purl_provenance_conflict env g (config.path ≠ "")
          (config.digest ≠ "") provenanceRepoUrl provenanceCommitDigest p
    | _, _ => false
  if conflict then
    { record :=
        mkFailRecord config "Input mismatch between repo/commit (purl) and provenance."
      checksRan := false }
  else
    run_single_component_stage env fs config existingRecords provenancePayload
      provenanceIsVerified provenanceRepoUrl provenanceCommitDigest gitObj
      analysisTarget

/-- The target segment of `Analyzer.run_single`: resolve the analysis
target, converting `InvalidAnalysisTargetError` into an `ANALYSIS_FAILED`
record. -/
def run_single_target_stage (env : Env) (fs : FileSystem)
    (config : Configuration)
    (existingRecords : Option (String → Option Record))
    (provenancePayload : Option InTotoPayload) (provenanceIsVerified : Bool)
    (parsedPurl : Option PackageURL)
    (provenanceRepoUrl provenanceCommitDigest : Option String) : SingleResult :=
  match to_analysis_target env config (availableDomains env) parsedPurl
      provenanceRepoUrl provenanceCommitDigest with
  | Except.error msg => { record := mkFailRecord config msg, checksRan := false }
  | Except.ok analysisTarget =>
    run_single_prepare_stage env fs config existingRecords provenancePayload
      provenanceIsVerified parsedPurl provenanceRepoUrl provenanceCommitDigest
      analysisTarget

/-- The extraction segment of `Analyzer.run_single`: extract the repository
URL and commit digest from the provenance payload and validate the raw
input against them, failing the target on a conflict. -/
def run_single_extract_stage (env : Env) (fs : FileSystem)
    (config : Configuration)
    (existingRecords : Option (String → Option Record))
    (provenancePayload : Option InTotoPayload) (provenanceIsVerified : Bool)
    (parsedPurl : Option PackageURL) : SingleResult :=
  let extracted := extract_repo_commit env provenancePayload
  if provenancePayload.isSome &&
      ((pyTruthy extracted.1 || pyTruthy extracted.2) &&
        check_if_input_repo_commit_provenance_conflict env config.path
          config.digest extracted.1 extracted.2) then
    { record :=
        mkFailRecord config "Input mismatch between repo/commit and provenance."
      checksRan := false }
  else
    run_single_target_stage env fs config existingRecords provenancePayload
      provenanceIsVerified parsedPurl extracted.1 extracted.2

/-- The provenance-finding segment of `Analyzer.run_single`: when no payload
was passed in, a PURL is available and no repository path was given, ask
the provenance finder, verifying the result when the `verify_provenance`
option is on. -/
def run_single_provenance_stage (env : Env) (fs : FileSystem)
    (config : Configuration)
    (existingRecords : Option (String → Option Record))
    (provenancePayload : Option InTotoPayload)
    (parsedPurl : Option PackageURL) : SingleResult :=
  let found : Option InTotoPayload × Bool :=
    match provenancePayload, parsedPurl with
    | none, some p =>
      if config.path = "" then
        match env.findProvenanceFn p with
        | [] => (none, false)
        | payload :: rest =>
          (some payload,
            if env.verifyProvenanceFlag then
              env.verifyProvenanceFn p (payload :: rest)
            else false)
      else (none, false)
    | _, _ => (provenancePayload, false)
  run_single_extract_stage env fs config existingRecords found.1 found.2
    parsedPurl

/-- `Analyzer.run_single`: parse and validate the PURL, then run the
provenance, extraction, target, preparation, component and analysis
segments.  Every target-local error is converted into a returned record. -/
def run_single (env : Env) (fs : FileSystem) (config : Configuration)
    (existingRecords : Option (String → Option Record))
    (provenancePayload : Option InTotoPayload) : SingleResult :=
  match parse_purl config with
  | Except.error msg => { record := mkFailRecord config msg, checksRan := false }
  | Except.ok none =>
    run_single_provenance_stage env fs config existingRecords provenancePayload
      none
  | Except.ok (some p) =>
    if purlTypeValid p.ptype then
      run_single_provenance_stage env fs config existingRecords
        provenancePayload (some p)
    else
      { record := mkFailRecord config ("Invalid purl type: " ++ p.ptype)
        checksRan := false }

/-- `os.EX_OK`. -/
def EX_OK : Int := 0

/-- `os.EX_DATAERR`. -/
def EX_DATAERR : Int := 65

/-- The outcome of `Analyzer.run`: the process exit status and the report
(absent when the run failed before or during finalization). -/
structure RunResult where
  exitCode : Int
  report : Option Report

/-- The record produced for one dependency configuration inside the loop of
`Analyzer.run`: a configuration pre-marked `DUPLICATED_SCM` by the
dependency-merge step is recorded without reprocessing (context backfilled
later); every other configuration is analyzed by `run_single` against the
run-scoped record index built so far. -/
def depRecordFor (env : Env) (fs : FileSystem) (report : Report)
    (config : Configuration) : Record :=
  if config.available = some SCMStatus.DUPLICATED_SCM then
    { recordId := config.id
      description := config.note
      preConfig := config
      status := SCMStatus.DUPLICATED_SCM
      context := none }
  else (run_single env fs config (some report.recordMapping) none).record

/-- The dependency loop of `Analyzer.run`: each attempted target appends
exactly one record to the report. -/
def processDeps (env : Env) (fs : FileSystem) :
    Report → List Configuration → Report
  | report, [] => report
  | report, config :: rest =>
    processDeps env fs
      { report with
        depRecords := report.depRecords ++ [depRecordFor env fs report config] }
      rest

/-- Whether a dependency record was pre-marked `DUPLICATED_SCM` by the
dependency-merge step (these are the records collected in
`duplicated_scm_records` and backfilled after the loop). -/
def isPreMarkedDup (r : Record) : Bool :=
  r.status = SCMStatus.DUPLICATED_SCM &&
    r.preConfig.available = some SCMStatus.DUPLICATED_SCM

/-- One step of the duplicate-context backfill: populate the i-th dependency
record's context from the report's id index when it was pre-marked
duplicated. -/
def backfillStep (report : Report) (i : Nat) : Report :=
  match report.depRecords.get? i with
  | some r =>
    if isPreMarkedDup r then
      { report with
        depRecords :=
          report.depRecords.set i
            { r with context := report.findCtx r.preConfig.id } }
    else report
  | none => report

/-- The duplicate-context backfill pass of `Analyzer.run`, mutating the
pre-marked duplicated records in order. -/
def backfillDups (report : Report) : Report :=
  (List.range report.depRecords.length).foldl backfillStep report

/-- The dependency configurations analyzed by a run: the declared ones
merged with the automatically resolved ones (empty when dependency
resolution is skipped). -/
def runDepsConfig (env : Env) (fs : FileSystem) (userConfig : UserConfig)
    (sbomPath : String) (skipDeps : Bool)
    (provenancePayload : Option InTotoPayload) : List Configuration :=
  match (run_single env fs userConfig.target none provenancePayload).record.context with
  | some ctx =>
    env.mergeConfigsFn userConfig.dependencies
      (if skipDeps then [] else env.resolveDependenciesFn ctx sbomPath)
  | none => []

/-- The body of `Analyzer.run` once the root target's record is known: when
it is not `AVAILABLE` or carries no context, stop with `EX_DATAERR` and no
dependency records.  Otherwise resolve and merge the dependencies, process
them sequentially, backfill duplicated-scm contexts, and finish with
`EX_OK` unless the storage layer fails the transaction (`EX_DATAERR`). -/
def run_with_main (env : Env) (fs : FileSystem) (userConfig : UserConfig)
    (sbomPath : String) (skipDeps : Bool) (mainRecord : Record) : RunResult :=
  if mainRecord.status = SCMStatus.AVAILABLE then
    match mainRecord.context with
    | none => { exitCode := EX_DATAERR, report := none }
    | some ctx =>
      let depsResolved : List DepInfo :=
        if skipDeps then [] else env.resolveDependenciesFn ctx sbomPath
      let depsConfig := env.mergeConfigsFn userConfig.dependencies depsResolved
      let report1 :=
        processDeps env fs { rootRecord := mainRecord, depRecords := [] } depsConfig
      let report2 := backfillDups report1
      if env.storageFails then { exitCode := EX_DATAERR, report := none }
      else { exitCode := EX_OK, report := some report2 }
  else { exitCode := EX_DATAERR, report := none }

/-- `Analyzer.run`: analyze the root target first, then proceed according to
its record. -/
def run (env : Env) (fs : FileSystem) (userConfig : UserConfig)
    (sbomPath : String) (skipDeps : Bool)
    (provenancePayload : Option InTotoPayload) : RunResult :=
  run_with_main env fs userConfig sbomPath skipDeps
    (run_single env fs userConfig.target none provenancePayload).record

/-- A baseline oracle environment for concrete scenarios: no configured
services or tools, all finders empty, storage healthy. -/
def env0 : Env :=
  { gitServices := []
    ciServices := []
    buildTools := []
    packageRegistries := []
    outputPath := ["out"]
    localReposPath := ⟨true, ["root"]⟩
    macaronPath := "m"
    verifyProvenanceFlag := false
    findProvenanceFn := fun _ => []
    verifyProvenanceFn := fun _ _ => false
    findProvenanceFromCiFn := fun _ _ => none
    extractRepoAndCommit := fun _ => Except.ok (none, none)
    sameLogicalRepo := fun a b => a == b
    toRepoPathFn := fun _ _ => none
    findRepoFn := fun _ => none
    findCommitFn := fun _ _ => none
    isRemoteRepoFn := fun _ => false
    getRemoteVcsUrlFn := fun s => s
    getRepoDirNameFn := fun _ => ["d"]
    getRepoFullNameFn := fun _ => "o/n"
    getRepoCompleteNameFn := fun _ => "h/o/n"
    checkOutRepoTargetFn := fun g _ _ _ => some g
    provenanceSubjectFn := fun _ _ => none
    expectationFn := fun _ => none
    relpathFn := fun a _ => a
    scanFn := fun _ => []
    resolveDependenciesFn := fun _ _ => []
    mergeConfigsFn := fun a _ => a
    inferredStatement := "inferred"
    storageFails := false }

/-- A filesystem where nothing resolves and no git repository exists. -/
def fs0 : FileSystem :=
  { realpath := fun _ => none, gitAt := fun _ => none }

/-- A configuration with a well-formed PURL and nothing else: the analysis
succeeds with no repository attached. -/
def cfg0 : Configuration :=
  { id := "t0"
    purl := PurlInput.parsed { ptype := "pypi", namespc := none, name := "requests", version := none }
    path := ""
    branch := ""
    digest := ""
    note := ""
    available := none }

/-- A configuration whose PURL string does not parse. -/
def cfgInvalid : Configuration :=
  { cfg0 with id := "t1", purl := PurlInput.invalid "bad purl" }

/-- A configuration with neither a PURL nor a repository path. -/
def cfgEmpty : Configuration :=
  { cfg0 with id := "t2", purl := PurlInput.absent }

/-- A configuration with only a repository path, which cannot be prepared
under `fs0`. -/
def cfgNoRepo : Configuration :=
  { cfg0 with id := "t3", purl := PurlInput.absent, path := "norepo" }

/-- A configuration whose PURL type violates `^[a-z.+-][a-z0-9.+-]*$`. -/
def cfgBadType : Configuration :=
  { cfg0 with
    id := "t4"
    purl := PurlInput.parsed { ptype := "Maven", namespc := some "g", name := "a", version := none } }

/-- A prepared local repository used in the duplicate scenario. -/
def gitDup : GitRepo :=
  { originRemotePath := "origin1"
    activeBranch := some "main"
    headCommitSha := "c"
    headCommitDate := "d"
    fsPath := "fsdup"
    files := []
    emptyRepo := false }

/-- A filesystem exposing exactly the sandboxed local repository `root/r`. -/
def fsDup : FileSystem :=
  { realpath := fun p =>
      if p = ⟨true, ["root"]⟩ then some ["root"]
      else if p = ⟨true, ["root", "r"]⟩ then some ["root", "r"]
      else none
    gitAt := fun q => if q = ["root", "r"] then some gitDup else none }

/-- A path-only configuration pointing at the duplicate repository. -/
def cfgDup : Configuration :=
  { cfg0 with id := "dep1", purl := PurlInput.absent, path := "r" }

/-- A component carried by the earlier record of the duplicate scenario. -/
def componentStub : Component :=
  { purl := "pkg:x/y"
    purlObj := { ptype := "x", namespc := none, name := "y", version := none }
    repository := none
    provenanceSubject := none }

/-- The analysis context of the earlier record in the duplicate scenario. -/
def ctxStub : AnalyzeContext :=
  get_analyze_ctx env0 componentStub

/-- The earlier record of the duplicate scenario: `AVAILABLE` with a
context. -/
def recordPrev : Record :=
  { recordId := "origin1"
    description := "Analysis Completed."
    preConfig := cfg0
    status := SCMStatus.AVAILABLE
    context := some ctxStub }

/-- The run-scoped record index of the duplicate scenario, keyed by
normalized remote origin. -/
def existingDup : String → Option Record :=
  fun key => if key == "origin1" then some recordPrev else none

/-- A detected git host service for the CI scenario. -/
def gitServiceH : GitService :=
  { name := "hsvc"
    hostname := "h"
    isNoneService := false
    isDetectedFn := fun s => s == "u1"
    cloneRepoFn := fun _ _ => Except.ok ()
    checkOutRepoFn := fun g _ _ _ => some g }

/-- A CI service whose detection predicate always matches. -/
def ciService1 : CIService :=
  { name := "ci1"
    isDetectedFn := fun _ _ => true
    buildCallGraphFn := fun _ _ => ⟨[]⟩ }

/-- The prepared remote repository of the CI scenario. -/
def gitCI : GitRepo :=
  { originRemotePath := "u1"
    activeBranch := some "m"
    headCommitSha := "c"
    headCommitDate := "d"
    fsPath := "fs1"
    files := []
    emptyRepo := false }

/-- Environment of the CI scenario: one detected host service, one matching
CI service. -/
def envCI : Env :=
  { env0 with
    gitServices := [gitServiceH]
    ciServices := [ciService1]
    isRemoteRepoFn := fun s => s == "u1" }

/-- Filesystem of the CI scenario: the clone destination holds the prepared
repository. -/
def fsCI : FileSystem :=
  { realpath := fun _ => none
    gitAt := fun q => if q = ["out", "git_repos", "d"] then some gitCI else none }

/-- Path-only configuration of the CI scenario. -/
def cfgCI : Configuration :=
  { cfg0 with id := "ci", purl := PurlInput.absent, path := "u1" }

/-- A provenance payload used in the conflict scenarios. -/
def pl0 : InTotoPayload := { statement := "pl" }

/-- Environment of the conflict scenarios: provenance extraction yields a
repository URL `v`, and no two URLs denote the same logical repository. -/
def envCf : Env :=
  { env0 with
    extractRepoAndCommit := fun _ => Except.ok (some "v", none)
    sameLogicalRepo := fun _ _ => false }

/-- Path-carrying configuration conflicting with the provenance values. -/
def cfgCf : Configuration :=
  { cfg0 with id := "cf", purl := PurlInput.absent, path := "u" }

/-- The PURL of the second conflict scenario. -/
def purlCf : PackageURL :=
  { ptype := "pypi", namespc := none, name := "pkgc", version := none }

/-- PURL-only configuration of the second conflict scenario (repository and
digest both taken from provenance). -/
def cfgCf2 : Configuration :=
  { cfg0 with id := "cf2", purl := PurlInput.parsed purlCf }

/-- The repository prepared from the provenance URL in the second conflict
scenario; its actual origin `w` differs from the provenance value `v`. -/
def gitCf : GitRepo :=
  { originRemotePath := "w"
    activeBranch := some "main"
    headCommitSha := "c"
    headCommitDate := "d"
    fsPath := "fscf"
    files := []
    emptyRepo := false }

/-- Filesystem of the second conflict scenario: the provenance URL `v`
resolves as a sandboxed local path holding `gitCf`. -/
def fsCf : FileSystem :=
  { realpath := fun p =>
      if p = ⟨true, ["root"]⟩ then some ["root"]
      else if p = ⟨true, ["root", "v"]⟩ then some ["root", "v"]
      else none
    gitAt := fun q => if q = ["root", "v"] then some gitCf else none }

/-- The root record of a finished run, when a report was assembled. -/
def RunResult.rootRecordOf (r : RunResult) : Option Record :=
  r.report.map (fun rep => rep.rootRecord)

/-- The number of dependency records of a finished run, when a report was
assembled. -/
def RunResult.depCountOf (r : RunResult) : Option Nat :=
  r.report.map (fun rep => rep.depRecords.length)

/-- An environment whose repo-path deriver succeeds deterministically. -/
def envRepo : Env :=
  { env0 with toRepoPathFn := fun _ _ => some "rp" }

/-- A filesystem whose root resolves but where the joined path escapes the
root (a traversal or symlink escape as seen by `realpath`). -/
def fsEsc : FileSystem :=
  { realpath := fun p =>
      if p = ⟨true, ["root"]⟩ then some ["root"]
      else if p = ⟨true, ["root", "e"]⟩ then some ["etc"]
      else none
    gitAt := fun _ => none }

/-- The repository row of the CI scenario. -/
def repoCI : Repository :=
  { fullName := "o/n"
    completeName := "h/o/n"
    remotePath := "u1"
    branchName := some "m"
    commitSha := "c"
    commitDate := "d"
    fsPath := "fs1"
    files := [] }

/-- The component of the CI scenario, with its repository attached. -/
def componentCI : Component :=
  { purl := "pkg:h/o/n@c"
    purlObj := { ptype := "h", namespc := some "o", name := "n", version := some "c" }
    repository := some repoCI
    provenanceSubject := none }

/-- The analysis context of the CI scenario. -/
def ctxCI : AnalyzeContext :=
  get_analyze_ctx envCI componentCI

/-- The record/context invariant of a `run_single` outcome: a failed record
carries no context, an available record carries a context finalized by the
check dispatch, and availability coincides with the checks having run. -/
def ResultInv (env : Env) (res : SingleResult) : Prop :=
  (res.record.status = SCMStatus.ANALYSIS_FAILED → res.record.context = none) ∧
  (res.record.status = SCMStatus.AVAILABLE →
    ∃ pre, res.record.context = some (finalizeChecks env pre)) ∧
  (res.record.status = SCMStatus.AVAILABLE ↔ res.checksRan = true)

theorem commonpath_eq_right {p d : List String} (h : commonpath p d = d) :
    ∃ t, d ++ t = p := by
  induction d generalizing p with
  | nil => exact ⟨p, rfl⟩
  | cons b bs ih =>
    cases p with
    | nil => simp [commonpath] at h
    | cons a as =>
      by_cases hab : a = b
      · subst hab
        have h' : (if a = a then a :: commonpath as bs else []) = a :: bs := h
        rw [if_pos rfl] at h'
        have h2 : commonpath as bs = bs := by
          injection h'
        obtain ⟨t, ht⟩ := ih h2
        exact ⟨t, by simp [ht]⟩
      · have h' : (if a = b then a :: commonpath as bs else []) = b :: bs := h
        rw [if_neg hab] at h'
        exact absurd h' (by simp)

theorem prepare_repo_none_of_no_git (env : Env) (fs : FileSystem)
    (td : List String) (rp bn dg : String) (pu : Option PackageURL)
    (h : ∀ q, fs.gitAt q = none) :
    _prepare_repo env fs td rp bn dg pu = none := by
  unfold _prepare_repo
  cases hl : _prepare_repo_locate env fs td rp with
  | none => rfl
  | some rlp => simp only [h]

theorem processDeps_root_and_length (env : Env) (fs : FileSystem) :
    ∀ (configs : List Configuration) (report : Report),
      (processDeps env fs report configs).rootRecord = report.rootRecord ∧
      (processDeps env fs report configs).depRecords.length =
        report.depRecords.length + configs.length
  | [], report => ⟨rfl, by simp [processDeps]⟩
  | config :: rest, report => by
    obtain ⟨h1, h2⟩ :=
      processDeps_root_and_length env fs rest
        { report with
          depRecords := report.depRecords ++ [depRecordFor env fs report config] }
    refine ⟨h1, ?_⟩
    rw [show processDeps env fs report (config :: rest) =
        processDeps env fs
          { report with
            depRecords := report.depRecords ++ [depRecordFor env fs report config] }
          rest from rfl, h2]
    simp
    omega

theorem backfillStep_root_and_length (report : Report) (i : Nat) :
    (backfillStep report i).rootRecord = report.rootRecord ∧
    (backfillStep report i).depRecords.length = report.depRecords.length := by
  unfold backfillStep
  split
  · split
    · exact ⟨rfl, by simp⟩
    · exact ⟨rfl, rfl⟩
  · exact ⟨rfl, rfl⟩

theorem foldl_backfill_root_and_length :
    ∀ (l : List Nat) (report : Report),
      ((l.foldl backfillStep report).rootRecord = report.rootRecord) ∧
      ((l.foldl backfillStep report).depRecords.length =
        report.depRecords.length)
  | [], _ => ⟨rfl, rfl⟩
  | i :: rest, report => by
    obtain ⟨h1, h2⟩ := foldl_backfill_root_and_length rest (backfillStep report i)
    obtain ⟨g1, g2⟩ := backfillStep_root_and_length report i
    exact ⟨by rw [List.foldl_cons, h1, g1], by rw [List.foldl_cons, h2, g2]⟩

theorem backfillDups_root_and_length (report : Report) :
    (backfillDups report).rootRecord = report.rootRecord ∧
    (backfillDups report).depRecords.length = report.depRecords.length :=
  foldl_backfill_root_and_length (List.range report.depRecords.length) report

theorem resultInv_fail (env : Env) (cfg : Configuration) (msg : String) :
    ResultInv env ⟨mkFailRecord cfg msg, false⟩ := by
  refine ⟨fun _ => rfl, fun hst => ?_, by simp [mkFailRecord]⟩
  simp [mkFailRecord] at hst

theorem resultInv_final (env : Env) (cfg : Configuration)
    (pp : Option InTotoPayload) (piv : Bool) (pr pd : Option String)
    (ctx : AnalyzeContext) :
    ResultInv env (run_single_final_stage env cfg pp piv pr pd ctx) := by
  refine ⟨fun hst => ?_, fun _ => ⟨_, rfl⟩, by simp [run_single_final_stage]⟩
  simp [run_single_final_stage] at hst

theorem resultInv_ite (env : Env) (c : Prop) [Decidable c]
    (a b : SingleResult) (ha : ResultInv env a) (hb : ResultInv env b) :
    ResultInv env (if c then a else b) := by
  by_cases h : c
  · rwa [if_pos h]
  · rwa [if_neg h]

theorem resultInv_conflict_outcome (env : Env) (cfg : Configuration)
    (piv : Bool) (payload : InTotoPayload) (rpi di : String)
    (ctx : AnalyzeContext) :
    ResultInv env
      (run_single_conflict_outcome env cfg piv payload rpi di ctx) := by
  unfold run_single_conflict_outcome
  exact resultInv_ite env _ _ _ (resultInv_fail env cfg _)
    (resultInv_final env cfg _ piv _ _ _)

theorem resultInv_ci_provenance (env : Env) (cfg : Configuration)
    (pp : Option InTotoPayload) (piv : Bool) (pr pd : Option String)
    (component : Component) (ctx : AnalyzeContext) (gitObj : Option GitRepo) :
    ResultInv env
      (run_single_ci_provenance_stage env cfg pp piv pr pd component ctx
        gitObj) := by
  unfold run_single_ci_provenance_stage
  cases pp with
  | some payload => apply resultInv_final
  | none =>
    cases env.findProvenanceFromCiFn ctx gitObj with
    | none => apply resultInv_final
    | some payload => apply resultInv_conflict_outcome

theorem resultInv_analyze (env : Env) (cfg : Configuration)
    (pp : Option InTotoPayload) (piv : Bool) (pr pd : Option String)
    (component : Component) (gitObj : Option GitRepo) :
    ResultInv env
      (run_single_analyze_stage env cfg pp piv pr pd component gitObj) := by
  unfold run_single_analyze_stage
  apply resultInv_ci_provenance

theorem resultInv_component (env : Env) (fs : FileSystem)
    (cfg : Configuration) (ex : Option (String → Option Record))
    (pp : Option InTotoPayload) (piv : Bool) (pr pd : Option String)
    (gitObj : Option GitRepo) (tgt : AnalysisTarget) :
    ResultInv env
      (run_single_component_stage env fs cfg ex pp piv pr pd gitObj tgt) := by
  unfold run_single_component_stage
  cases hac : add_component env tgt gitObj ex pp with
  | error e =>
    cases e with
    | purlNotFound msg => apply resultInv_fail
    | duplicate msg ctx =>
      refine ⟨fun hst => ?_, fun hst => ?_, by simp⟩
      · simp at hst
      · simp at hst
  | ok component => apply resultInv_analyze

theorem resultInv_prepare (env : Env) (fs : FileSystem)
    (cfg : Configuration) (ex : Option (String → Option Record))
    (pp : Option InTotoPayload) (piv : Bool) (parsedPurl : Option PackageURL)
    (pr pd : Option String) (tgt : AnalysisTarget) :
    ResultInv env
      (run_single_prepare_stage env fs cfg ex pp piv parsedPurl pr pd tgt) := by
  unfold run_single_prepare_stage
  exact resultInv_ite env _ _ _ (resultInv_fail env cfg _)
    (resultInv_component env fs cfg ex pp piv pr pd _ tgt)

theorem resultInv_target (env : Env) (fs : FileSystem)
    (cfg : Configuration) (ex : Option (String → Option Record))
    (pp : Option InTotoPayload) (piv : Bool) (parsedPurl : Option PackageURL)
    (pr pd : Option String) :
    ResultInv env
      (run_single_target_stage env fs cfg ex pp piv parsedPurl pr pd) := by
  unfold run_single_target_stage
  cases hta : to_analysis_target env cfg (availableDomains env) parsedPurl pr pd with
  | error msg => apply resultInv_fail
  | ok tgt => apply resultInv_prepare

theorem resultInv_extract (env : Env) (fs : FileSystem)
    (cfg : Configuration) (ex : Option (String → Option Record))
    (pp : Option InTotoPayload) (piv : Bool)
    (parsedPurl : Option PackageURL) :
    ResultInv env
      (run_single_extract_stage env fs cfg ex pp piv parsedPurl) := by
  unfold run_single_extract_stage
  exact resultInv_ite env _ _ _ (resultInv_fail env cfg _)
    (resultInv_target env fs cfg ex pp piv parsedPurl _ _)

theorem resultInv_provenance (env : Env) (fs : FileSystem)
    (cfg : Configuration) (ex : Option (String → Option Record))
    (pp : Option InTotoPayload) (parsedPurl : Option PackageURL) :
    ResultInv env
      (run_single_provenance_stage env fs cfg ex pp parsedPurl) := by
  unfold run_single_provenance_stage
  apply resultInv_extract

theorem resultInv_run_single (env : Env) (fs : FileSystem)
    (cfg : Configuration) (ex : Option (String → Option Record))
    (pp : Option InTotoPayload) :
    ResultInv env (run_single env fs cfg ex pp) := by
  unfold run_single
  cases hp : parse_purl cfg with
  | error msg => apply resultInv_fail
  | ok po =>
    cases po with
    | none => apply resultInv_provenance
    | some p =>
      exact resultInv_ite env _ _ _
        (resultInv_provenance env fs cfg ex pp (some p))
        (resultInv_fail env cfg _)

/-- C5: with a parsed identifier and no repository path input,
`to_analysis_target` adopts a provenance repo URL or digest directly when
one is available (branch empty, no repo-path derivation); otherwise it
derives the repo path deterministically from the identifier over the known
host domains, falling back to the best-effort repository search exactly
when the deterministic conversion yields nothing, with branch and digest
taken from user input. -/
theorem to_analysis_target_purl_no_path (env : Env) (cfg : Configuration)
    (doms : List String) (p : PackageURL) (pr pd : Option String)
    (hpath : cfg.path = "") :
    ((pyTruthy pr || pyTruthy pd) = true →
      to_analysis_target env cfg doms (some p) pr pd =
        Except.ok ⟨some p, pyGetStr pr, "", pyGetStr pd⟩) ∧
    ((pyTruthy pr || pyTruthy pd) = false →
      (∀ s, env.toRepoPathFn p doms = some s → s ≠ "" →
        to_analysis_target env cfg doms (some p) pr pd =
          Except.ok ⟨some p, s, cfg.branch, cfg.digest⟩) ∧
      (env.toRepoPathFn p doms = none →
        to_analysis_target env cfg doms (some p) pr pd =
          Except.ok
            ⟨some p, pyGetStr (env.findRepoFn p), cfg.branch, cfg.digest⟩)) := by
  constructor
  · intro hprov
    simp [to_analysis_target, hpath, hprov]
  · intro hprov
    constructor
    · intro s hs hs0
      simp [to_analysis_target, hpath, hprov, hs, pyOrOpt, pyGetStr, hs0]
    · intro hs
      simp [to_analysis_target, hpath, hprov, hs, pyOrOpt, pyGetStr]

theorem to_analysis_target_purl_no_path_witness :
    (to_analysis_target env0 cfg0 [] (some purlCf) (some "v") none =
      Except.ok ⟨some purlCf, pyGetStr (some "v"), "", pyGetStr none⟩) ∧
    (to_analysis_target envRepo cfg0 [] (some purlCf) none none =
      Except.ok ⟨some purlCf, "rp", cfg0.branch, cfg0.digest⟩) ∧
    (to_analysis_target env0 cfg0 [] (some purlCf) none none =
      Except.ok
        ⟨some purlCf, pyGetStr (env0.findRepoFn purlCf), cfg0.branch,
          cfg0.digest⟩) :=
  ⟨(to_analysis_target_purl_no_path env0 cfg0 [] purlCf (some "v") none rfl).1
      rfl,
    ((to_analysis_target_purl_no_path envRepo cfg0 [] purlCf none none rfl).2
        rfl).1 "rp" rfl (by decide),
    ((to_analysis_target_purl_no_path env0 cfg0 [] purlCf none none rfl).2
        rfl).2 rfl⟩

theorem to_analysis_target_ok_parsedPurl (env : Env) (cfg : Configuration)
    (doms : List String) (pp : Option PackageURL) (pr pd : Option String)
    (tgt : AnalysisTarget)
    (h : to_analysis_target env cfg doms pp pr pd = Except.ok tgt) :
    tgt.parsedPurl = pp := by
  cases pp with
  | none =>
    simp only [to_analysis_target] at h
    split_ifs at h
    all_goals
      (simp only [Except.ok.injEq] at h
       subst h
       rfl)
  | some p =>
    simp only [to_analysis_target] at h
    split_ifs at h
    all_goals
      (simp only [Except.ok.injEq] at h
       subst h
       rfl)

theorem to_analysis_target_ok_repoPath_of_path (env : Env)
    (cfg : Configuration) (doms : List String) (pp : Option PackageURL)
    (pr pd : Option String) (tgt : AnalysisTarget) (h2 : cfg.path ≠ "")
    (h : to_analysis_target env cfg doms pp pr pd = Except.ok tgt) :
    tgt.repoPath = cfg.path := by
  cases pp with
  | none =>
    simp only [to_analysis_target] at h
    split_ifs at h
    all_goals
      (simp only [Except.ok.injEq] at h
       subst h
       rfl)
  | some p =>
    simp only [to_analysis_target] at h
    split_ifs at h
    all_goals
      (simp only [Except.ok.injEq] at h
       subst h
       rfl)

/-- C6: `to_analysis_target` fails with `InvalidAnalysisTargetError` when
both the parsed identifier and the repository path input are absent, and
every target it returns has a parsed identifier or a non-empty repository
path. -/
theorem to_analysis_target_needs_purl_or_path (env : Env)
    (cfg : Configuration) (doms : List String) (pr pd : Option String) :
    (cfg.path = "" →
      to_analysis_target env cfg doms none pr pd =
        Except.error
          "Cannot determine the analysis target: PURL and repository path are missing.") ∧
    (∀ pp tgt, to_analysis_target env cfg doms pp pr pd = Except.ok tgt →
      tgt.parsedPurl ≠ none ∨ tgt.repoPath ≠ "") := by
  constructor
  · intro hpath
    simp [to_analysis_target, hpath]
  · intro pp tgt h
    cases pp with
    | some p =>
      left
      rw [to_analysis_target_ok_parsedPurl env cfg doms (some p) pr pd tgt h]
      simp
    | none =>
      right
      by_cases h2 : cfg.path = ""
      · have herr : to_analysis_target env cfg doms none pr pd =
            Except.error
              "Cannot determine the analysis target: PURL and repository path are missing." := by
          simp [to_analysis_target, h2]
        rw [herr] at h
        exact absurd h (by simp)
      · rw [to_analysis_target_ok_repoPath_of_path env cfg doms none pr pd tgt
          h2 h]
        exact h2

theorem to_analysis_target_needs_purl_or_path_witness :
    (to_analysis_target env0 cfgEmpty [] none none none =
      Except.error
        "Cannot determine the analysis target: PURL and repository path are missing.") ∧
    ((⟨some purlCf, "", "", ""⟩ : AnalysisTarget).parsedPurl ≠ none ∨
      (⟨some purlCf, "", "", ""⟩ : AnalysisTarget).repoPath ≠ "") :=
  ⟨(to_analysis_target_needs_purl_or_path env0 cfgEmpty [] none none).1 rfl,
    (to_analysis_target_needs_purl_or_path env0 cfg0 [] none none).2
      (some purlCf) ⟨some purlCf, "", "", ""⟩ rfl⟩

/-- C7: a configuration whose identifier parses but whose type violates
`^[a-z.+-][a-z0-9.+-]*$` makes `run_single` return an `ANALYSIS_FAILED`
record with the invalid-type description; the outcome is this record for
every oracle environment, filesystem, record index, repository path,
branch, digest and provenance input (so it precedes any evidence
resolution), and no checks are run. -/
theorem invalid_purl_type_always_rejected (env : Env) (fs : FileSystem)
    (cfg : Configuration) (ex : Option (String → Option Record))
    (prov : Option InTotoPayload) (p : PackageURL)
    (hp : cfg.purl = PurlInput.parsed p)
    (hv : purlTypeValid p.ptype = false) :
    run_single env fs cfg ex prov =
      ⟨mkFailRecord cfg ("Invalid purl type: " ++ p.ptype), false⟩ := by
  simp [run_single, parse_purl, hp, hv]

theorem invalid_purl_type_always_rejected_witness :
    run_single env0 fs0 cfgBadType none none =
      ⟨mkFailRecord cfgBadType ("Invalid purl type: " ++ "Maven"), false⟩ :=
  invalid_purl_type_always_rejected env0 fs0 cfgBadType none none
    { ptype := "Maven", namespc := some "g", name := "a", version := none }
    rfl rfl

/-- C8: `_resolve_local_path` returns nothing or the canonical form of the
joined path, and in the latter case that canonical path lies inside the
canonical form of the start directory (it extends it); a path that does not
resolve (non-existent path, broken symlink) yields nothing, and a resolved
path lying outside the canonical root (traversal or symlink escape) yields
nothing. -/
theorem resolve_local_path_sandboxed (fs : FileSystem)
    (startDir localPath : FsPath) :
    (∀ p, _resolve_local_path fs startDir localPath = some p →
      fs.realpath (pathJoin startDir localPath) = some p ∧
      ∃ d, fs.realpath startDir = some d ∧ ∃ t, d ++ t = p) ∧
    (fs.realpath (pathJoin startDir localPath) = none →
      _resolve_local_path fs startDir localPath = none) ∧
    (∀ q d, fs.realpath startDir = some d →
      fs.realpath (pathJoin startDir localPath) = some q →
      (∀ t, d ++ t ≠ q) →
      _resolve_local_path fs startDir localPath = none) := by
  refine ⟨?_, ?_, ?_⟩
  · intro p h
    unfold _resolve_local_path at h
    cases hd : fs.realpath startDir with
    | none =>
      simp only [hd] at h
      exact Option.noConfusion h
    | some dirReal =>
      simp only [hd] at h
      cases hq : fs.realpath (pathJoin startDir localPath) with
      | none =>
        simp only [hq] at h
        exact Option.noConfusion h
      | some resolvePath =>
        simp only [hq] at h
        by_cases hc : commonpath resolvePath dirReal ≠ dirReal
        · rw [if_pos hc] at h
          cases h
        · rw [if_neg hc] at h
          cases h
          push_neg at hc
          exact ⟨rfl, dirReal, rfl, commonpath_eq_right hc⟩
  · intro hq
    unfold _resolve_local_path
    cases hd : fs.realpath startDir with
    | none => rfl
    | some dirReal => simp only [hq]
  · intro q d hd hq hnp
    unfold _resolve_local_path
    simp only [hd, hq]
    rw [if_pos ?_]
    intro hc
    obtain ⟨t, ht⟩ := commonpath_eq_right hc
    exact hnp t ht

theorem resolve_local_path_sandboxed_witness :
    (fsDup.realpath (pathJoin ⟨true, ["root"]⟩ ⟨false, ["r"]⟩) =
        some ["root", "r"] ∧
      ∃ d, fsDup.realpath ⟨true, ["root"]⟩ = some d ∧
        ∃ t, d ++ t = ["root", "r"]) ∧
    (_resolve_local_path fs0 ⟨true, ["root"]⟩ ⟨false, ["r"]⟩ = none) ∧
    (_resolve_local_path fsEsc ⟨true, ["root"]⟩ ⟨false, ["e"]⟩ = none) :=
  ⟨(resolve_local_path_sandboxed fsDup ⟨true, ["root"]⟩ ⟨false, ["r"]⟩).1
      ["root", "r"] rfl,
    (resolve_local_path_sandboxed fs0 ⟨true, ["root"]⟩ ⟨false, ["r"]⟩).2.1 rfl,
    (resolve_local_path_sandboxed fsEsc ⟨true, ["root"]⟩ ⟨false, ["e"]⟩).2.2
      ["etc"] ["root"] rfl rfl
      (fun t ht => by
        injection ht with h1 h2
        exact absurd h1 (by decide))⟩

/-- C4: when the run-scoped record index maps the prepared repository's
remote origin to an earlier record, `add_component` fails with
`DuplicateCmpError` carrying that record's context, and the component
segment of `run_single` converts this into a `DUPLICATED_SCM` record whose
context is exactly the earlier record's context; no checks are run for the
later target. -/
theorem duplicate_component_reuses_context (env : Env)
    (tgt : AnalysisTarget) (g : GitRepo) (lookup : String → Option Record)
    (r : Record) (prov : Option InTotoPayload)
    (h : lookup g.originRemotePath = some r) :
    add_component env tgt (some g) (some lookup) prov =
      Except.error
        (AddComponentError.duplicate (tgt.repoPath ++ " is already analyzed.")
          r.context) ∧
    (∀ fs cfg piv pr pd,
      run_single_component_stage env fs cfg (some lookup) prov piv pr pd
          (some g) tgt =
        ⟨{ recordId := cfg.id
           description := tgt.repoPath ++ " is already analyzed."
           preConfig := cfg
           status := SCMStatus.DUPLICATED_SCM
           context := r.context }, false⟩) := by
  have h1 : add_component env tgt (some g) (some lookup) prov =
      Except.error
        (AddComponentError.duplicate (tgt.repoPath ++ " is already analyzed.")
          r.context) := by
    unfold add_component
    simp only [h]
  refine ⟨h1, fun fs cfg piv pr pd => ?_⟩
  unfold run_single_component_stage
  rw [h1]

theorem duplicate_component_reuses_context_witness :
    add_component env0 ⟨none, "r", "", ""⟩ (some gitDup) (some existingDup)
        none =
      Except.error
        (AddComponentError.duplicate ("r" ++ " is already analyzed.")
          recordPrev.context) ∧
    (∀ fs cfg piv pr pd,
      run_single_component_stage env0 fs cfg (some existingDup) none piv pr pd
          (some gitDup) ⟨none, "r", "", ""⟩ =
        ⟨{ recordId := cfg.id
           description := "r" ++ " is already analyzed."
           preConfig := cfg
           status := SCMStatus.DUPLICATED_SCM
           context := recordPrev.context }, false⟩) :=
  duplicate_component_reuses_context env0 ⟨none, "r", "", ""⟩ gitDup
    existingDup recordPrev none rfl

/-- C10 as stated is false on the code: a `DUPLICATED_SCM` record returned
by `run_single` can carry a non-None context (the earlier record's), so a
non-None context does not imply status AVAILABLE. -/
theorem record_status_context_counterexample :
    (run_single env0 fsDup cfgDup (some existingDup) none).record.status ≠
      SCMStatus.AVAILABLE ∧
    (run_single env0 fsDup cfgDup (some existingDup) none).record.context.isSome =
      true := by
  constructor
  · intro h
    have hs : (run_single env0 fsDup cfgDup (some existingDup) none).record.status =
        SCMStatus.DUPLICATED_SCM := rfl
    rw [hs] at h
    cases h
  · rfl

/-- C10 amended: an `ANALYSIS_FAILED` record from `run_single` never carries
a context; an `AVAILABLE` record always carries a context finalized by the
check dispatch, and a record is `AVAILABLE` exactly when the checks were
dispatched; a `DUPLICATED_SCM` record may carry the earlier record's
context. -/
theorem record_status_context_invariant (env : Env) (fs : FileSystem)
    (cfg : Configuration) (ex : Option (String → Option Record))
    (prov : Option InTotoPayload) :
    ((run_single env fs cfg ex prov).record.status = SCMStatus.ANALYSIS_FAILED →
      (run_single env fs cfg ex prov).record.context = none) ∧
    ((run_single env fs cfg ex prov).record.status = SCMStatus.AVAILABLE →
      ∃ pre, (run_single env fs cfg ex prov).record.context =
        some (finalizeChecks env pre)) ∧
    ((run_single env fs cfg ex prov).record.status = SCMStatus.AVAILABLE ↔
      (run_single env fs cfg ex prov).checksRan = true) :=
  resultInv_run_single env fs cfg ex prov

/-- C3: when a provenance payload is supplied and carries a non-empty
repository URL or digest, `run_single` first reaches the extraction
segment; a conflict of the raw input with the provenance values fails the
target with the input-mismatch description, and without a conflict
resolution proceeds to target resolution; after preparation, a conflict of
the actual prepared repository with the provenance values fails the target
with the purl input-mismatch description, and without a conflict resolution
proceeds to component construction. -/
theorem provenance_conflict_checks (env : Env) (fs : FileSystem)
    (cfg : Configuration) (ex : Option (String → Option Record))
    (pl : InTotoPayload) (pr pd : Option String)
    (hex : extract_repo_commit env (some pl) = (pr, pd))
    (hne : (pyTruthy pr || pyTruthy pd) = true) :
    (∀ p, cfg.purl = PurlInput.parsed p → purlTypeValid p.ptype = true →
      run_single env fs cfg ex (some pl) =
        run_single_extract_stage env fs cfg ex (some pl) false (some p)) ∧
    (check_if_input_repo_commit_provenance_conflict env cfg.path cfg.digest
        pr pd = true →
      ∀ parsedPurl piv,
        run_single_extract_stage env fs cfg ex (some pl) piv parsedPurl =
          ⟨mkFailRecord cfg "Input mismatch between repo/commit and provenance.",
            false⟩) ∧
    (check_if_input_repo_commit_provenance_conflict env cfg.path cfg.digest
        pr pd = false →
      ∀ parsedPurl piv,
        run_single_extract_stage env fs cfg ex (some pl) piv parsedPurl =
          run_single_target_stage env fs cfg ex (some pl) piv parsedPurl pr
            pd) ∧
    (∀ g p tgt piv, tgt.repoPath ≠ "" → prepareTarget env fs tgt = some g →
      check_if_input_purl_provenance_conflict env g (cfg.path ≠ "")
          (cfg.digest ≠ "") pr pd p = true →
      run_single_prepare_stage env fs cfg ex (some pl) piv (some p) pr pd
          tgt =
        ⟨mkFailRecord cfg
            "Input mismatch between repo/commit (purl) and provenance.",
          false⟩) ∧
    (∀ g p tgt piv, tgt.repoPath ≠ "" → prepareTarget env fs tgt = some g →
      check_if_input_purl_provenance_conflict env g (cfg.path ≠ "")
          (cfg.digest ≠ "") pr pd p = false →
      run_single_prepare_stage env fs cfg ex (some pl) piv (some p) pr pd
          tgt =
        run_single_component_stage env fs cfg ex (some pl) piv pr pd (some g)
          tgt) := by
  refine ⟨?_, ?_, ?_, ?_, ?_⟩
  · intro p hp hv
    simp [run_single, parse_purl, hp, hv, run_single_provenance_stage]
  · intro hc parsedPurl piv
    simp [run_single_extract_stage, hex, hne, hc]
  · intro hc parsedPurl piv
    simp [run_single_extract_stage, hex, hne, hc]
  · intro g p tgt piv hrp hprep hc
    simp only [decide_not] at hc
    simp [run_single_prepare_stage, hrp, hprep, hne, hc]
  · intro g p tgt piv hrp hprep hc
    simp only [decide_not] at hc
    simp [run_single_prepare_stage, hrp, hprep, hne, hc]

theorem provenance_conflict_checks_witness :
    (run_single_extract_stage envCf fs0 cfgCf none (some pl0) false none =
      ⟨mkFailRecord cfgCf "Input mismatch between repo/commit and provenance.",
        false⟩) ∧
    (run_single envCf fsCf cfgCf2 none (some pl0) =
      run_single_extract_stage envCf fsCf cfgCf2 none (some pl0) false
        (some purlCf)) ∧
    (run_single_extract_stage envCf fsCf cfgCf2 none (some pl0) false
        (some purlCf) =
      run_single_target_stage envCf fsCf cfgCf2 none (some pl0) false
        (some purlCf) (some "v") none) ∧
    (run_single_prepare_stage envCf fsCf cfgCf2 none (some pl0) false
        (some purlCf) (some "v") none ⟨some purlCf, "v", "", ""⟩ =
      ⟨mkFailRecord cfgCf2
          "Input mismatch between repo/commit (purl) and provenance.",
        false⟩) :=
  ⟨(provenance_conflict_checks envCf fs0 cfgCf none pl0 (some "v") none rfl
        rfl).2.1 rfl none false,
    (provenance_conflict_checks envCf fsCf cfgCf2 none pl0 (some "v") none rfl
        rfl).1 purlCf rfl rfl,
    (provenance_conflict_checks envCf fsCf cfgCf2 none pl0 (some "v") none rfl
        rfl).2.2.1 rfl (some purlCf) false,
    (provenance_conflict_checks envCf fsCf cfgCf2 none pl0 (some "v") none rfl
        rfl).2.2.2.1 gitCf purlCf ⟨some purlCf, "v", "", ""⟩ false
      (by decide) rfl rfl⟩

/-- C9 as stated is false on the code: with one configured CI service whose
detection predicate matches, the context of the record returned by
`run_single` holds two CIInfo entries for that service, not exactly one,
because `run_single` runs CI detection once via `_determine_ci_services`
and a second time inside `perform_checks`. -/
theorem ci_detection_counterexample :
    envCI.ciServices.length = 1 ∧
    ((run_single envCI fsCI cfgCI none none).record.context.map
        (fun c => c.dynamicData.ciServices.length)) = some 2 :=
  ⟨rfl, rfl⟩

/-- C9 amended: CI detection is skipped entirely under the sentinel host
service; when a host service was detected, each CI-detection pass appends
exactly one CIInfo entry (built by `mkCIInfo` with the pipeline
representation and the placeholder provenance entry) per CI service whose
detection predicate matches — once in `_determine_ci_services` and once
more inside `perform_checks` — so the final context holds one entry per
matching service per pass. -/
theorem ci_detection_scoped_per_pass (env : Env) (ctx : AnalyzeContext)
    (gitService : GitService) :
    (gitService.isNoneService = true →
      _determine_ci_services env ctx gitService = ctx) ∧
    (gitService.isNoneService = false →
      (_determine_ci_services env ctx gitService).dynamicData.ciServices =
        ctx.dynamicData.ciServices ++ ciInfosFor env ctx) ∧
    ((ciInfosFor env ctx).map (fun info => info.service.name) =
      (env.ciServices.filter
          (fun s => s.isDetectedFn (fsPathOf ctx) ctx.dynamicData.gitService)).map
        (fun s => s.name)) ∧
    (∀ s, s ∈ env.ciServices →
      s.isDetectedFn (fsPathOf ctx) ctx.dynamicData.gitService = true →
      (env.ciServices.map (fun c => c.name)).Nodup →
      ((ciInfosFor env ctx).map (fun info => info.service.name)).count s.name =
        1) ∧
    (∀ gitService2,
      get_git_service env (remotePathOf (addPurlTools env ctx)) = gitService2 →
      gitService2.isNoneService = false →
      (perform_checks env ctx).1.dynamicData.ciServices =
        ctx.dynamicData.ciServices ++
          ciInfosFor env
            (perform_checks_tools_ctx env (addPurlTools env ctx)
              gitService2)) := by
  have hnames : (ciInfosFor env ctx).map (fun info => info.service.name) =
      (env.ciServices.filter
          (fun s => s.isDetectedFn (fsPathOf ctx) ctx.dynamicData.gitService)).map
        (fun s => s.name) := by
    unfold ciInfosFor
    rw [List.map_map]
    rfl
  refine ⟨?_, ?_, hnames, ?_, ?_⟩
  · intro h
    simp [_determine_ci_services, h]
  · intro h
    simp [_determine_ci_services, h]
  · intro s hs hdet hnodup
    rw [hnames]
    have hsub :
        ((env.ciServices.filter
            (fun s => s.isDetectedFn (fsPathOf ctx) ctx.dynamicData.gitService)).map
          (fun s => s.name)).Sublist (env.ciServices.map (fun c => c.name)) :=
      (List.filter_sublist env.ciServices).map _
    have hnd := hnodup.sublist hsub
    have hmem : s.name ∈
        (env.ciServices.filter
            (fun s => s.isDetectedFn (fsPathOf ctx) ctx.dynamicData.gitService)).map
          (fun s => s.name) :=
      List.mem_map.mpr ⟨s, List.mem_filter.mpr ⟨hs, hdet⟩, rfl⟩
    exact List.count_eq_one_of_mem hnd hmem
  · intro gitService2 hgs hns
    unfold perform_checks perform_checks_mutate
    simp only [hgs, hns]
    rfl

theorem ci_detection_scoped_per_pass_witness :
    (_determine_ci_services env0 ctxStub noneGitService = ctxStub) ∧
    ((_determine_ci_services envCI ctxCI gitServiceH).dynamicData.ciServices =
      ctxCI.dynamicData.ciServices ++ ciInfosFor envCI ctxCI) ∧
    (((ciInfosFor envCI ctxCI).map (fun info => info.service.name)).count
        ciService1.name = 1) ∧
    ((perform_checks envCI ctxCI).1.dynamicData.ciServices =
      ctxCI.dynamicData.ciServices ++
        ciInfosFor envCI
          (perform_checks_tools_ctx envCI (addPurlTools envCI ctxCI)
            gitServiceH)) := by
  refine ⟨(ci_detection_scoped_per_pass env0 ctxStub noneGitService).1 rfl,
    (ci_detection_scoped_per_pass envCI ctxCI gitServiceH).2.1 rfl,
    (ci_detection_scoped_per_pass envCI ctxCI gitServiceH).2.2.2.1 ciService1
      (by simp [envCI]) rfl (by simp [envCI]),
    (ci_detection_scoped_per_pass envCI ctxCI gitServiceH).2.2.2.2 gitServiceH
      rfl rfl⟩

theorem record_status_context_invariant_witness :
    (run_single env0 fs0 cfgInvalid none none).record.context = none ∧
    ∃ pre, (run_single env0 fs0 cfg0 none none).record.context =
      some (finalizeChecks env0 pre) :=
  ⟨(record_status_context_invariant env0 fs0 cfgInvalid none none).1 rfl,
    (record_status_context_invariant env0 fs0 cfg0 none none).2.1 rfl⟩

/-- C1: the exit status of `run` is determined solely by the root target's
record: when its status is not `AVAILABLE` or it carries no context, `run`
returns `EX_DATAERR` and assembles no report (so no dependency record
exists); when it is `AVAILABLE` with a context and the storage layer is
healthy, `run` returns `EX_OK` no matter what the dependency records
contain — the environment, and with it every dependency outcome, is
universally quantified. -/
theorem run_exit_reflects_root_only (env : Env) (fs : FileSystem)
    (userConfig : UserConfig) (sbomPath : String) (skipDeps : Bool)
    (prov : Option InTotoPayload) :
    (((run_single env fs userConfig.target none prov).record.status ≠
          SCMStatus.AVAILABLE ∨
        (run_single env fs userConfig.target none prov).record.context.isNone =
          true) →
      (run env fs userConfig sbomPath skipDeps prov).exitCode = EX_DATAERR ∧
      (run env fs userConfig sbomPath skipDeps prov).report = none) ∧
    ((run_single env fs userConfig.target none prov).record.status =
        SCMStatus.AVAILABLE →
      (run_single env fs userConfig.target none prov).record.context.isSome =
        true →
      env.storageFails = false →
      (run env fs userConfig sbomPath skipDeps prov).exitCode = EX_OK) := by
  unfold run run_with_main
  generalize (run_single env fs userConfig.target none prov).record = mainRecord
  constructor
  · intro h
    by_cases hst : mainRecord.status = SCMStatus.AVAILABLE
    · rw [if_pos hst]
      cases hc : mainRecord.context with
      | none => exact ⟨rfl, rfl⟩
      | some ctx =>
        rcases h with h | h
        · exact absurd hst h
        · rw [hc] at h
          simp at h
    · rw [if_neg hst]
      exact ⟨rfl, rfl⟩
  · intro hst hctx hsf
    rw [if_pos hst]
    cases hc : mainRecord.context with
    | none =>
      rw [hc] at hctx
      simp at hctx
    | some ctx =>
      simp only [hsf]
      simp [EX_OK]

theorem run_exit_reflects_root_only_witness :
    ((run env0 fs0 ⟨cfgInvalid, []⟩ "" true none).exitCode = EX_DATAERR ∧
      (run env0 fs0 ⟨cfgInvalid, []⟩ "" true none).report = none) ∧
    (run env0 fs0 ⟨cfg0, []⟩ "" true none).exitCode = EX_OK :=
  ⟨(run_exit_reflects_root_only env0 fs0 ⟨cfgInvalid, []⟩ "" true none).1
      (Or.inr rfl),
    (run_exit_reflects_root_only env0 fs0 ⟨cfg0, []⟩ "" true none).2 rfl rfl
      rfl⟩

/-- C2: each enumerated target-local failure is converted by `run_single`
into a returned record with a failure status and the raised error's message
as description, never an escaping exception (an unparseable identifier, an
indeterminate target, and an unavailable repository with no identifier are
shown here; the evidence conflict and duplicate cases are the subjects of
the conflict and duplicate theorems); and at the run level, whenever a
report is assembled, the root record is exactly the record computed for the
root configuration alone and there is exactly one dependency record per
attempted dependency configuration, failed ones included. -/
theorem target_local_failures_contained (env : Env) (fs : FileSystem)
    (cfg : Configuration) (ex : Option (String → Option Record))
    (prov : Option InTotoPayload) (userConfig : UserConfig)
    (sbomPath : String) (skipDeps : Bool) :
    (∀ raw, cfg.purl = PurlInput.invalid raw →
      run_single env fs cfg ex prov =
        ⟨mkFailRecord cfg ("Invalid input PURL: " ++ raw), false⟩) ∧
    (cfg.purl = PurlInput.absent → cfg.path = "" → prov = none →
      run_single env fs cfg ex prov =
        ⟨mkFailRecord cfg
            "Cannot determine the analysis target: PURL and repository path are missing.",
          false⟩) ∧
    (cfg.purl = PurlInput.absent → cfg.path ≠ "" → prov = none →
      (∀ q, fs.gitAt q = none) →
      run_single env fs cfg ex prov =
        ⟨mkFailRecord cfg
            ("The repository " ++ cfg.path ++
              " is not available and no PURL is provided from the user."),
          false⟩) ∧
    ((run env fs userConfig sbomPath skipDeps prov).report.isSome = true →
      (run env fs userConfig sbomPath skipDeps prov).rootRecordOf =
        some (run_single env fs userConfig.target none prov).record ∧
      (run env fs userConfig sbomPath skipDeps prov).depCountOf =
        some (runDepsConfig env fs userConfig sbomPath skipDeps prov).length) := by
  refine ⟨?_, ?_, ?_, ?_⟩
  · intro raw hp
    simp [run_single, parse_purl, hp]
  · intro hp hpath hpv
    subst hpv
    simp [run_single, parse_purl, hp, run_single_provenance_stage,
      run_single_extract_stage, extract_repo_commit, pyTruthy,
      run_single_target_stage, to_analysis_target, hpath]
  · intro hp hpath hpv hgit
    subst hpv
    have hpre : ∀ tgt : AnalysisTarget, prepareTarget env fs tgt = none :=
      fun tgt =>
        prepare_repo_none_of_no_git env fs (env.outputPath ++ [gitReposDir])
          tgt.repoPath tgt.branch tgt.digest tgt.parsedPurl hgit
    by_cases hd : cfg.digest = ""
    · simp [run_single, parse_purl, hp, run_single_provenance_stage,
        run_single_extract_stage, extract_repo_commit, pyTruthy,
        run_single_target_stage, to_analysis_target, hpath, hd,
        run_single_prepare_stage, hpre, run_single_component_stage,
        add_component, pyGetStr]
    · simp [run_single, parse_purl, hp, run_single_provenance_stage,
        run_single_extract_stage, extract_repo_commit, pyTruthy,
        run_single_target_stage, to_analysis_target, hpath, hd,
        run_single_prepare_stage, hpre, run_single_component_stage,
        add_component, pyGetStr]
  · intro hsome
    unfold run run_with_main at hsome ⊢
    unfold RunResult.rootRecordOf RunResult.depCountOf runDepsConfig
    by_cases hst : (run_single env fs userConfig.target none prov).record.status =
        SCMStatus.AVAILABLE
    · rw [if_pos hst] at hsome ⊢
      cases hc : (run_single env fs userConfig.target none prov).record.context with
      | none =>
        simp only [hc] at hsome
        exact absurd hsome (by simp)
      | some ctx =>
        simp only [hc] at hsome ⊢
        cases hsf : env.storageFails with
        | true =>
          simp only [hsf] at hsome
          exact absurd hsome (by simp)
        | false =>
          rw [if_neg (by decide : ¬(false = true))]
          obtain ⟨hpr, hpl⟩ :=
            processDeps_root_and_length env fs
              (env.mergeConfigsFn userConfig.dependencies
                (if skipDeps then []
                 else env.resolveDependenciesFn ctx sbomPath))
              ⟨(run_single env fs userConfig.target none prov).record, []⟩
          obtain ⟨hbr, hbl⟩ :=
            backfillDups_root_and_length
              (processDeps env fs
                ⟨(run_single env fs userConfig.target none prov).record, []⟩
                (env.mergeConfigsFn userConfig.dependencies
                  (if skipDeps then []
                   else env.resolveDependenciesFn ctx sbomPath)))
          constructor
          · simp only [Option.map_some']
            rw [hbr, hpr]
          · simp only [Option.map_some']
            rw [hbl, hpl]
            simp
    · rw [if_neg hst] at hsome
      exact absurd hsome (by simp)

theorem target_local_failures_contained_witness :
    (run_single env0 fs0 cfgInvalid none none =
      ⟨mkFailRecord cfgInvalid ("Invalid input PURL: " ++ "bad purl"),
        false⟩) ∧
    (run_single env0 fs0 cfgEmpty none none =
      ⟨mkFailRecord cfgEmpty
          "Cannot determine the analysis target: PURL and repository path are missing.",
        false⟩) ∧
    (run_single env0 fs0 cfgNoRepo none none =
      ⟨mkFailRecord cfgNoRepo
          ("The repository " ++ "norepo" ++
            " is not available and no PURL is provided from the user."),
        false⟩) ∧
    ((run env0 fs0 ⟨cfg0, []⟩ "" true none).rootRecordOf =
      some (run_single env0 fs0 cfg0 none none).record ∧
      (run env0 fs0 ⟨cfg0, []⟩ "" true none).depCountOf =
        some (runDepsConfig env0 fs0 ⟨cfg0, []⟩ "" true none).length) :=
  ⟨(target_local_failures_contained env0 fs0 cfgInvalid none none ⟨cfg0, []⟩
        "" true).1 "bad purl" rfl,
    (target_local_failures_contained env0 fs0 cfgEmpty none none ⟨cfg0, []⟩
        "" true).2.1 rfl rfl rfl,
    (target_local_failures_contained env0 fs0 cfgNoRepo none none ⟨cfg0, []⟩
        "" true).2.2.1 rfl (by decide) rfl (fun q => rfl),
    (target_local_failures_contained env0 fs0 cfg0 none none ⟨cfg0, []⟩ ""
        true).2.2.2 rfl⟩

end Macaron
